import Mathlib

/-!
# Vavicky MCP server: tool catalogue and request translation

A shallow embedding of `src/index.js` (class `VavickyMCPServer`) and of the
`POST /call-tool` route of `src/wrapper.js`.

* `JS` holds the fragment of JavaScript the program relies on: JSON values,
  truthiness, text conversion, own properties of plain objects, `URLSearchParams`
  and `JSON.stringify`.
* `VavickyMCPServer` holds the catalogue returned by the list-tools handler, the
  `switch` of `executeTool`, `filterEmptyValues`, the request execution and the two
  entry surfaces.

A number is given by the text that `Number.prototype.toString` prints for it (`0`,
`-5`, `0.8`, `1152921504606847000`, `1e+21`, `Infinity`): the program performs no
arithmetic, it only tests numbers for truthiness and prints them, and that text
determines the number up to the sign of zero, which neither operation observes.

`McpError` is the class of the MCP SDK: its constructor stores the code and sets the
message of the error to `MCP error <code>: <message>`.
-/

set_option autoImplicit false

namespace JS

/-- JSON data as the program sees it, together with `undefined`. A number `num text`
is the double that `Number.prototype.toString` prints as `text`: `num "50"`,
`num "0.8"`, `num "1e+21"`; both zeros are `num "0"`. -/
inductive Value where
  | undefined
  | null
  | bool (b : Bool)
  | num (text : String)
  | str (s : String)
  | arr (items : List Value)
  | obj (props : List (String × Value))

/-- Own enumerable string-keyed properties of a plain object, listed in the order
in which `Object.entries`, a rest pattern and `JSON.stringify` enumerate them. -/
abbrev Object := List (String × Value)

/-- Values a `throw` can raise in this program: `new Error(message)`, the `TypeError`
the language raises itself, and any other error (of class `name`) that a library call
rejects with. -/
inductive Error where
  | error (message : String)
  | typeError (message : String)
  | other (name : String) (message : String)
  deriving DecidableEq, Repr

/-- The `message` property of a thrown error. -/
def Error.message : Error → String
  | .error m => m
  | .typeError m => m
  | .other _ m => m

namespace Value

/-- Strict comparison `v === undefined`. -/
def isUndefined : Value → Bool
  | undefined => true
  | _ => false

/-- Strict comparison `v === null`. -/
def isNull : Value → Bool
  | null => true
  | _ => false

/-- Strict comparison `v === ''`. -/
def isEmptyString : Value → Bool
  | str s => decide (s = "")
  | _ => false

/-- The test `v !== undefined && v !== null && v !== ''` of `filterEmptyValues`. -/
def nonEmpty (v : Value) : Bool := !v.isUndefined && !v.isNull && !v.isEmptyString

/-- The boolean a value is coerced to by `if (v)`, `!v` and `v || w`: among the
numbers, the zeros and `NaN` are falsy. -/
def truthy : Value → Bool
  | undefined => false
  | null => false
  | bool b => b
  | num text => decide (text ≠ "0" ∧ text ≠ "NaN")
  | str s => decide (s ≠ "")
  | arr _ => true
  | obj _ => true

/-- One element of a joined array: `undefined` and `null` print as the empty
string, any other element as its own text. -/
def itemText (v : Value) (text : Except Error String) : Except Error String :=
  if v.isUndefined || v.isNull then pure "" else text

mutual
/-- Text conversion of a template literal `${v}`. A plain object prints through
`Object.prototype.toString`; an own `toString` property (never callable in JSON
data) shadows it and the conversion throws. An array prints as `join(',')`, a number
as `Number.prototype.toString` prints it (`1e+21`, not its digits). -/
def toStr : Value → Except Error String
  | undefined => pure "undefined"
  | null => pure "null"
  | bool b => pure (if b then "true" else "false")
  | num text => pure text
  | str s => pure s
  | arr items => joinItems items
  | obj props =>
    if props.any (fun p => p.1 == "toString") then
      throw (.typeError "Cannot convert object to primitive value")
    else pure "[object Object]"
termination_by structural v => v
/-- The text of `items.join(',')`. -/
def joinItems : List Value → Except Error String
  | [] => pure ""
  | [v] => itemText v (toStr v)
  | v :: w :: more => do
    let a ← itemText v (toStr v)
    let b ← joinItems (w :: more)
    pure (a ++ "," ++ b)
termination_by structural l => l
end

/-- The method call `v.toString()`, where `callee` is the text of the called
expression: a property read on `undefined` or `null` throws, and so does calling an
own `toString` property of an object. -/
def callToString (v : Value) (callee : String) : Except Error String :=
  match v with
  | undefined => throw (.typeError "Cannot read properties of undefined (reading 'toString')")
  | null => throw (.typeError "Cannot read properties of null (reading 'toString')")
  | obj props =>
    if props.any (fun p => p.1 == "toString") then
      throw (.typeError (callee ++ " is not a function"))
    else pure "[object Object]"
  | v => v.toStr

end Value

namespace Object

/-- The own property `k` of `o`, if there is one. -/
def getOwn (o : Object) (k : String) : Option Value :=
  match o with
  | [] => none
  | (k', v) :: rest => if k' = k then some v else getOwn rest k

/-- Whether `o` has an own property named `k`. -/
def hasOwn (o : Object) (k : String) : Bool := (getOwn o k).isSome

/-- The property read `o.k`, for a name that no prototype defines: the own value, or
`undefined`. -/
def get (o : Object) (k : String) : Value := (getOwn o k).getD .undefined

/-- The text that `${o.k}` adds to a template literal; the empty text stands in when
the conversion throws. -/
def templateText (o : Object) (k : String) : String :=
  match (get o k).toStr with
  | .ok text => text
  | .error _ => ""

/-- The own property names, in enumeration order. -/
def keys (o : Object) : List String := o.map Prod.fst

/-- The rest pattern `const { k, ...rest } = o`: every own property but `k`. -/
def rest (o : Object) (k : String) : Object := o.filter (fun p => decide (p.1 ≠ k))

/-- Value of a string of decimal digits. -/
def digitsValue (cs : List Char) : Nat :=
  cs.foldl (fun n c => 10 * n + (c.toNat - 48)) 0

/-- The array index a property name denotes: a canonical decimal numeral below
`2^32 - 1`. Such names are enumerated first, in ascending order. -/
def arrayIndex? (k : String) : Option Nat :=
  match k.data with
  | [] => none
  | c :: cs =>
    if (c :: cs).all (fun d => decide (48 ≤ d.toNat ∧ d.toNat ≤ 57)) ∧ (c ≠ '0' ∨ cs = []) ∧
        digitsValue (c :: cs) < 4294967295 then
      some (digitsValue (c :: cs))
    else none

/-- Insertion of a fresh array-index property `k` (of index `n`) at its place among
the index-named properties, which precede all others. -/
def insertIndexed (o : Object) (k : String) (n : Nat) (v : Value) : Object :=
  match o with
  | [] => [(k, v)]
  | p :: more =>
    match arrayIndex? p.1 with
    | some m => if m < n then p :: insertIndexed more k n v else (k, v) :: p :: more
    | none => (k, v) :: p :: more

/-- The assignment `o[k] = v` on a plain object. The name `__proto__` reaches the
setter inherited from `Object.prototype`, which creates no own property; an existing
own property keeps its place; a fresh one is added in enumeration order. -/
def setProp (o : Object) (k : String) (v : Value) : Object :=
  if k = "__proto__" then o
  else if hasOwn o k then o.map (fun p => if p.1 = k then (p.1, v) else p)
  else
    match arrayIndex? k with
    | some n => insertIndexed o k n v
    | none => o ++ [(k, v)]

/-- Whether a property named `a` is enumerated before one named `b`: array-index names
come first, by ascending index; the other names follow, in the order of their
creation. -/
def precedes (a b : String) : Bool :=
  match arrayIndex? a, arrayIndex? b with
  | some m, some n => decide (m < n)
  | some _, none => true
  | none, some _ => false
  | none, none => true

/-- What every list of own properties satisfies: the names are distinct and stand in
enumeration order. -/
def WellFormed (o : Object) : Prop :=
  (keys o).Nodup ∧ (keys o).Pairwise (fun a b => precedes a b = true)

instance (o : Object) : Decidable (WellFormed o) :=
  inferInstanceAs (Decidable (_ ∧ _))

end Object

/-- Digit `d < 16` of a hexadecimal numeral, upper case. -/
def hexUpper (d : Nat) : Char := ("0123456789ABCDEF".data).getD d '0'

/-- Digit `d < 16` of a hexadecimal numeral, lower case. -/
def hexLower (d : Nat) : Char := ("0123456789abcdef".data).getD d '0'

/-- UTF-8 bytes of the code point `n`. -/
def utf8Bytes (n : Nat) : List Nat :=
  if n < 128 then [n]
  else if n < 2048 then [192 + n / 64, 128 + n % 64]
  else if n < 65536 then [224 + n / 4096, 128 + n / 64 % 64, 128 + n % 64]
  else [240 + n / 262144, 128 + n / 4096 % 64, 128 + n / 64 % 64, 128 + n % 64]

/-- A list of name-value pairs, the state of a `URLSearchParams` object. -/
abbrev URLSearchParams := List (String × String)

namespace URLSearchParams

/-- Method `append(name, value)`: the value is converted to text and the pair is
added at the end. -/
def append (params : URLSearchParams) (name : String) (value : Value) :
    Except Error URLSearchParams := do
  let text ← value.toStr
  pure (params ++ [(name, text)])

/-- One byte of the `application/x-www-form-urlencoded` serialisation: a space is
`+`, letters, digits and `*-._` stand for themselves, any other byte is `%XX`. -/
def encodeByte (b : Nat) : List Char :=
  if b = 32 then ['+']
  else if b = 42 ∨ b = 45 ∨ b = 46 ∨ b = 95 ∨ (48 ≤ b ∧ b ≤ 57) ∨ (65 ≤ b ∧ b ≤ 90) ∨
      (97 ≤ b ∧ b ≤ 122) then [Char.ofNat b]
  else ['%', hexUpper (b / 16), hexUpper (b % 16)]

/-- Serialisation of one name or value. -/
def encode (s : String) : String :=
  String.mk (s.data.flatMap (fun c => (utf8Bytes c.toNat).flatMap encodeByte))

/-- Method `toString()`: the pairs as `name=value`, joined by `&`. -/
def toString (params : URLSearchParams) : String :=
  "&".intercalate (params.map (fun p => encode p.1 ++ "=" ++ encode p.2))

end URLSearchParams

namespace JSON

/-- One character of a quoted JSON string: the quotation mark (34) and the reverse
solidus (92) are escaped, control characters are written by their short escape or as
`u00XX`, every other character stands for itself. -/
def quoteChar (c : Char) : List Char :=
  if c.toNat = 34 then [Char.ofNat 92, Char.ofNat 34]
  else if c.toNat = 92 then [Char.ofNat 92, Char.ofNat 92]
  else if c.toNat = 8 then [Char.ofNat 92, 'b']
  else if c.toNat = 9 then [Char.ofNat 92, 't']
  else if c.toNat = 10 then [Char.ofNat 92, 'n']
  else if c.toNat = 12 then [Char.ofNat 92, 'f']
  else if c.toNat = 13 then [Char.ofNat 92, 'r']
  else if c.toNat < 32 then
    [Char.ofNat 92, 'u', '0', '0', hexLower (c.toNat / 16), hexLower (c.toNat % 16)]
  else [c]

/-- A string as a JSON string literal. -/
def quote (s : String) : String :=
  String.mk (Char.ofNat 34 :: (s.data.flatMap quoteChar ++ [Char.ofNat 34]))

/-- Brackets around the serialised members of an array or object. -/
def wrap (gap stepback : String) (opening closing : String) (members : List String) :
    String :=
  if members.isEmpty then opening ++ closing
  else if gap = "" then opening ++ ",".intercalate members ++ closing
  else
    opening ++ "\n" ++ (stepback ++ gap) ++
      (",\n" ++ (stepback ++ gap)).intercalate members ++ "\n" ++ stepback ++ closing

mutual
/-- The text `JSON.stringify` gives a value at indentation `indent`, each level
adding `gap`; `none` stands for the result `undefined`. A finite number is written as
its own text, `NaN` and the infinities as `null`. -/
def serialize (gap indent : String) : Value → Option String
  | .undefined => none
  | .null => some "null"
  | .bool b => some (if b then "true" else "false")
  | .num text =>
    some (if text = "NaN" ∨ text = "Infinity" ∨ text = "-Infinity" then "null" else text)
  | .str s => some (quote s)
  | .arr items => some (wrap gap indent "[" "]" (serializeItems gap (indent ++ gap) items))
  | .obj props => some (wrap gap indent "\x7b" "\x7d" (serializeProps gap (indent ++ gap) props))
termination_by structural v => v
/-- Elements of an array: `undefined` is written `null`. -/
def serializeItems (gap indent : String) : List Value → List String
  | [] => []
  | v :: more => (serialize gap indent v).getD "null" :: serializeItems gap indent more
termination_by structural l => l
/-- Members of an object: a property whose value is `undefined` is left out. -/
def serializeProps (gap indent : String) : List (String × Value) → List String
  | [] => []
  | (k, v) :: more =>
    match serialize gap indent v with
    | none => serializeProps gap indent more
    | some text =>
      (quote k ++ (if gap = "" then ":" else ": ") ++ text) :: serializeProps gap indent more
termination_by structural l => l
end

/-- Call `JSON.stringify(value)`. -/
def stringify (value : Value) : Option String := serialize "" "" value

/-- Call `JSON.stringify(value, null, 2)`. -/
def stringifyIndented (value : Value) : Option String := serialize "  " "" value

end JSON

end JS

namespace VavickyMCPServer

open JS

/-- A default written in a parameter schema: a string, a boolean, or a number given
as `mantissa / 10 ^ decimals` (so `0.8` is `number 8 1`). -/
inductive Default where
  | text (s : String)
  | flag (b : Bool)
  | number (mantissa : Int) (decimals : Nat)
  deriving DecidableEq, Repr

/-- One entry of `inputSchema.properties`. -/
structure Property where
  type : String
  description : Option String := none
  enum : Option (List String) := none
  default? : Option Default := none
  items : Option String := none
  deriving DecidableEq, Repr

/-- The `inputSchema` of a tool. -/
structure InputSchema where
  type : String := "object"
  properties : List (String × Property)
  required : List String
  deriving DecidableEq, Repr

/-- One element of the `tools` array. -/
structure Tool where
  name : String
  description : String
  inputSchema : InputSchema
  deriving DecidableEq, Repr

/-- The `tools` array returned by the `ListToolsRequestSchema` handler. -/
def tools : List Tool := [
  { name := "get_user",
    description := "Get user data including tokens and settings",
    inputSchema := {
      properties := [],
      required := [] } },
  { name := "update_white_label",
    description := "Update White Label details: name, description, domain and color",
    inputSchema := {
      properties := [
        ("whitelabel_name", { type := "string", description := some "White label name" }),
        ("whitelabel_description", { type := "string", description := some "White label description" }),
        ("whitelabel_domain", { type := "string", description := some "White label domain" }),
        ("whitelabel_color", { type := "string", description := some "White label color (hex code)" })],
      required := [] } },
  { name := "update_smtp",
    description := "Update SMTP settings for custom email notifications",
    inputSchema := {
      properties := [
        ("smtp_email", { type := "string", description := some "SMTP email address" }),
        ("smtp_password", { type := "string", description := some "SMTP password" }),
        ("smtp_host", { type := "string", description := some "SMTP host" }),
        ("smtp_port", { type := "string", description := some "SMTP port" })],
      required := ["smtp_email", "smtp_password", "smtp_host"] } },
  { name := "update_openai_token",
    description := "Update OpenAI API Key",
    inputSchema := {
      properties := [
        ("openai_token", { type := "string", description := some "OpenAI API Key" })],
      required := ["openai_token"] } },
  { name := "update_elevenlabs_token",
    description := "Update Elevenlabs API Key",
    inputSchema := {
      properties := [
        ("elevenlabs_token", { type := "string", description := some "Elevenlabs API Key" })],
      required := ["elevenlabs_token"] } },
  { name := "update_deepseek_token",
    description := "Update Deepseek API Key",
    inputSchema := {
      properties := [
        ("deepseek_token", { type := "string", description := some "Deepseek API Key" })],
      required := ["deepseek_token"] } },
  { name := "update_gemini_token",
    description := "Update Google Gemini API Key",
    inputSchema := {
      properties := [
        ("gemini_token", { type := "string", description := some "Google Gemini API Key" })],
      required := ["gemini_token"] } },
  { name := "update_openrouter_token",
    description := "Update Open Router API Key",
    inputSchema := {
      properties := [
        ("openrouter_token", { type := "string", description := some "Open Router API Key" })],
      required := ["openrouter_token"] } },
  { name := "get_assistants",
    description := "Get all assistants for the authenticated user",
    inputSchema := {
      properties := [],
      required := [] } },
  { name := "get_assistant",
    description := "Get basic information about a specific assistant",
    inputSchema := {
      properties := [
        ("assistant_id", { type := "string", description := some "Assistant ID" })],
      required := ["assistant_id"] } },
  { name := "get_one_assistant",
    description := "Get complete information about a specific assistant",
    inputSchema := {
      properties := [
        ("assistant_id", { type := "string", description := some "Assistant ID" })],
      required := ["assistant_id"] } },
  { name := "create_assistant",
    description := "Create a new assistant with comprehensive configuration",
    inputSchema := {
      properties := [
        ("name", { type := "string", description := some "Assistant name" }),
        ("apiKey", { type := "string", description := some "OpenAI API Key" }),
        ("welcome_message", { type := "string", description := some "Welcome message", default? := some (.text "Hello how can I help you today?") }),
        ("prompt", { type := "string", description := some "Instructions/Prompt for the assistant" }),
        ("active", { type := "boolean", description := some "Whether assistant is active", default? := some (.flag true) }),
        ("assistant_type", { type := "string", description := some "AI Type", enum := some ["Text Only", "Voice Only", "Text & Voice", "Voice & Text"] }),
        ("ai_platform", { type := "string", description := some "AI Provider", enum := some ["openai", "gemini", "openrouter", "deepseek"] }),
        ("openai_model", { type := "string", description := some "AI Model", default? := some (.text "gpt-3.5-turbo") }),
        ("openai_temperature", { type := "number", description := some "AI Temperature (0-2)", default? := some (.number 8 1) }),
        ("booking_bot", { type := "boolean", description := some "Is booking bot", default? := some (.flag false) }),
        ("location", { type := "string", description := some "GoHighLevel Location" }),
        ("calendar", { type := "string", description := some "Calendar ID" }),
        ("timezone", { type := "string", description := some "Timezone" }),
        ("custom_field", { type := "string", description := some "Custom field" }),
        ("limit_call_time", { type := "number", description := some "Limit call time in seconds", default? := some (.number 240 0) }),
        ("limit_call_tokens", { type := "number", description := some "Limit call tokens", default? := some (.number 2000 0) }),
        ("max_call_tokens", { type := "number", description := some "Max call tokens", default? := some (.number 18000 0) }),
        ("elevenlabs_voice_id", { type := "string", description := some "ElevenLabs Voice ID" }),
        ("twilio_sid", { type := "string", description := some "Twilio SID" }),
        ("twilio_token", { type := "string", description := some "Twilio Token" }),
        ("twilio_phone", { type := "string", description := some "Twilio Phone Number" }),
        ("twilio_welcome", { type := "string", description := some "Twilio Welcome Message" }),
        ("twilio_speech_timeout", { type := "number", description := some "Twilio Speech Timeout", default? := some (.number 3 0) }),
        ("twilio_initial_delay", { type := "number", description := some "Twilio Initial Delay", default? := some (.number 1 0) }),
        ("google_calendar", { type := "boolean", description := some "Google Calendar Integration", default? := some (.flag false) }),
        ("webhook_to_send", { type := "string", description := some "Webhook URL" }),
        ("openai_realtime", { type := "boolean", description := some "OpenAI Realtime", default? := some (.flag false) }),
        ("openai_realtime_voice", { type := "string", description := some "OpenAI Realtime Voice", enum := some ["alloy", "echo", "fable", "nova", "onyx", "shimmer"] }),
        ("openai_websites", { type := "array", description := some "OpenAI Websites", items := some "string" })],
      required := ["name", "apiKey"] } },
  { name := "update_assistant",
    description := "Update an existing assistant",
    inputSchema := {
      properties := [
        ("assistant_id", { type := "string", description := some "Assistant ID" }),
        ("name", { type := "string", description := some "Assistant name" }),
        ("apiKey", { type := "string", description := some "OpenAI API Key" }),
        ("welcome_message", { type := "string", description := some "Welcome message" }),
        ("prompt", { type := "string", description := some "Instructions/Prompt" }),
        ("active", { type := "boolean", description := some "Whether assistant is active" }),
        ("assistant_type", { type := "string", enum := some ["Text Only", "Voice Only", "Text & Voice", "Voice & Text"] }),
        ("ai_platform", { type := "string", enum := some ["openai", "gemini", "openrouter", "deepseek"] }),
        ("openai_model", { type := "string", description := some "AI Model" }),
        ("openai_temperature", { type := "number", description := some "AI Temperature (0-2)" }),
        ("booking_bot", { type := "boolean", description := some "Is booking bot" }),
        ("location", { type := "string", description := some "GoHighLevel Location" }),
        ("calendar", { type := "string", description := some "Calendar ID" }),
        ("timezone", { type := "string", description := some "Timezone" }),
        ("custom_field", { type := "string", description := some "Custom field" })],
      required := ["assistant_id"] } },
  { name := "delete_assistant",
    description := "Delete an assistant",
    inputSchema := {
      properties := [
        ("assistant_id", { type := "string", description := some "Assistant ID" })],
      required := ["assistant_id"] } },
  { name := "get_assistant_files",
    description := "Get files associated with an assistant",
    inputSchema := {
      properties := [
        ("assistant_id", { type := "string", description := some "Assistant ID" })],
      required := ["assistant_id"] } },
  { name := "delete_assistant_file",
    description := "Delete a specific file from an assistant",
    inputSchema := {
      properties := [
        ("assistant_id", { type := "string", description := some "Assistant ID" }),
        ("file_id", { type := "string", description := some "File ID" })],
      required := ["assistant_id", "file_id"] } },
  { name := "get_assistant_usage",
    description := "Get usage statistics for an assistant",
    inputSchema := {
      properties := [
        ("assistant_id", { type := "string", description := some "Assistant ID" })],
      required := ["assistant_id"] } },
  { name := "get_assistants_token_usage",
    description := "Get token usage across all assistants",
    inputSchema := {
      properties := [],
      required := [] } },
  { name := "get_dashboard_assistant",
    description := "Get the dashboard assistant for the authenticated user",
    inputSchema := {
      properties := [],
      required := [] } },
  { name := "chat_with_assistant",
    description := "Chat with a specific assistant",
    inputSchema := {
      properties := [
        ("assistant_id", { type := "string", description := some "Assistant ID" }),
        ("message", { type := "string", description := some "Message to send" }),
        ("thread_id", { type := "string", description := some "Chat/Thread ID" }),
        ("audio", { type := "boolean", description := some "Enable audio response", default? := some (.flag false) })],
      required := ["assistant_id", "message", "thread_id"] } },
  { name := "connect_twilio",
    description := "Connect Twilio account credentials",
    inputSchema := {
      properties := [
        ("twilio_sid", { type := "string", description := some "Twilio Account SID" }),
        ("twilio_token", { type := "string", description := some "Twilio Auth Token" })],
      required := ["twilio_sid", "twilio_token"] } },
  { name := "disconnect_twilio",
    description := "Disconnect Twilio account",
    inputSchema := {
      properties := [],
      required := [] } },
  { name := "get_twilio_numbers",
    description := "Get all Twilio phone numbers",
    inputSchema := {
      properties := [],
      required := [] } },
  { name := "get_available_numbers",
    description := "Get available phone numbers for purchase",
    inputSchema := {
      properties := [
        ("country_code", { type := "string", description := some "Country code", default? := some (.text "US") }),
        ("number_type", { type := "string", description := some "Number type", enum := some ["local", "tollfree", "mobile"], default? := some (.text "local") }),
        ("search_pattern", { type := "string", description := some "Search for numbers containing this pattern" }),
        ("locality", { type := "string", description := some "Locality/city for local numbers" })],
      required := [] } },
  { name := "buy_twilio_number",
    description := "Purchase a new Twilio phone number",
    inputSchema := {
      properties := [
        ("phone_number", { type := "string", description := some "Phone number to purchase" })],
      required := ["phone_number"] } },
  { name := "update_twilio_number",
    description := "Update Twilio number configuration",
    inputSchema := {
      properties := [
        ("number_sid", { type := "string", description := some "Number SID" }),
        ("friendly_name", { type := "string", description := some "Friendly name" }),
        ("voice_webhook", { type := "string", description := some "Voice webhook URL" }),
        ("sms_webhook", { type := "string", description := some "SMS webhook URL" })],
      required := ["number_sid"] } },
  { name := "get_twilio_usage",
    description := "Get Twilio usage statistics",
    inputSchema := {
      properties := [
        ("start_date", { type := "string", description := some "Start date (ISO format)" }),
        ("end_date", { type := "string", description := some "End date (ISO format)" }),
        ("limit", { type := "number", description := some "Max number of results", default? := some (.number 50 0) })],
      required := [] } },
  { name := "make_call",
    description := "Make a phone call through assistant",
    inputSchema := {
      properties := [
        ("assistant_id", { type := "string", description := some "Assistant ID" }),
        ("phone_number", { type := "string", description := some "Phone number to call" }),
        ("contact_id", { type := "string", description := some "Contact ID (optional)" })],
      required := ["assistant_id", "phone_number"] } },
  { name := "make_bulk_call",
    description := "Make bulk phone calls",
    inputSchema := {
      properties := [
        ("assistant_id", { type := "string", description := some "Assistant ID" }),
        ("contact_bulk_id", { type := "string", description := some "Contact bulk ID" })],
      required := ["assistant_id", "contact_bulk_id"] } },
  { name := "get_calls_in_progress",
    description := "Get all calls currently in progress",
    inputSchema := {
      properties := [],
      required := [] } },
  { name := "cancel_call",
    description := "Cancel an active phone call",
    inputSchema := {
      properties := [
        ("call_id", { type := "string", description := some "Call ID" })],
      required := ["call_id"] } },
  { name := "send_sms",
    description := "Send SMS message through assistant",
    inputSchema := {
      properties := [
        ("assistant_id", { type := "string", description := some "Assistant ID" }),
        ("phone_number", { type := "string", description := some "Phone number to send SMS" }),
        ("message", { type := "string", description := some "SMS message content" }),
        ("contact_id", { type := "string", description := some "Contact ID (optional)" })],
      required := ["assistant_id", "phone_number", "message"] } }]

/-- Source `filterEmptyValues(obj)`: copies into a fresh object every entry whose
value is none of `undefined`, `null`, `''`. -/
def filterEmptyValues (obj : Object) : Object :=
  obj.foldl
    (fun cleaned entry =>
      if entry.2.nonEmpty then Object.setProp cleaned entry.1 entry.2 else cleaned)
    []

/-- The names the catalogue advertises, in order. -/
def toolNames : List String := tools.map Tool.name

/-- The fields of `this` that the handlers read: `apiKey` is the environment variable
`VAVICKY_API_KEY` (a string, or `undefined`). -/
structure Server where
  apiKey : Option String
  baseUrl : String := "https://backend.vavicky.com/vavicky/api"

/-- The locals `url`, `method` and `body` of `executeTool` once the `switch` is left;
`method` starts as `'GET'` and `body` as `null`. -/
structure Locals where
  url : String
  method : String := "GET"
  body : Option Object := none

/-- The call `fetch(url, options)`: `options.body` is the JSON text of `body`. -/
structure FetchCall where
  url : String
  method : String
  headers : List (String × String)
  body : Option String
  deriving DecidableEq, Repr

/-- What the program observes of a response: `status`, `statusText`, and what
`text()` and `json()` resolve to or reject with. -/
structure Response where
  status : Nat
  statusText : String
  text : Except Error String
  json : Except Error Value

/-- Property `ok` of a response: the status is in the range 200 to 299. -/
def Response.ok (r : Response) : Bool := decide (200 ≤ r.status ∧ r.status ≤ 299)

/-- The backend as seen through `fetch`: a response, or a rejection when the request
does not reach it. -/
abbrev Backend := FetchCall → Except Error Response

/-- The `case` labels of the `switch (toolName)` in `executeTool`, in source order. -/
def caseLabels : List String :=
  ["get_user", "update_white_label", "update_smtp", "update_openai_token",
   "update_elevenlabs_token", "update_deepseek_token", "update_gemini_token",
   "update_openrouter_token", "get_assistants", "get_assistant", "get_one_assistant",
   "create_assistant", "update_assistant", "delete_assistant", "get_assistant_files",
   "delete_assistant_file", "get_assistant_usage", "get_assistants_token_usage",
   "get_dashboard_assistant", "chat_with_assistant", "connect_twilio",
   "disconnect_twilio", "get_twilio_numbers", "get_available_numbers",
   "buy_twilio_number", "update_twilio_number", "get_twilio_usage", "make_call",
   "make_bulk_call", "get_calls_in_progress", "cancel_call", "send_sms"]

/-- The operand `args.audio || false`. -/
def orFalse (v : Value) : Value := if v.truthy then v else .bool false

/-- A guarded `if (v) params.append(name, v)`. -/
def appendIfTruthy (params : URLSearchParams) (name : String) (v : Value) :
    Except Error URLSearchParams :=
  if v.truthy then params.append name v else pure params

/-- A guarded `if (v) params.append(name, v.toString())`, written for `args.limit`. -/
def appendTextIfTruthy (params : URLSearchParams) (name : String) (v : Value) :
    Except Error URLSearchParams :=
  if v.truthy then do
    let text ← v.callToString "args.limit.toString"
    params.append name (.str text)
  else pure params

/-- A guarded `if (v) body[name] = v`. -/
def setIfTruthy (body : Object) (name : String) (v : Value) : Object :=
  if v.truthy then Object.setProp body name v else body

/-- The `switch (toolName)` of `executeTool`: the request each tool is translated
to, or the error thrown on the way. -/
def switch (self : Server) (toolName : String) (args : Object) : Except Error Locals :=
  match toolName with
  | "get_user" => pure { url := self.baseUrl ++ "/user" }
  | "update_white_label" =>
    pure {
      url := self.baseUrl ++ "/user"
      method := "PATCH"
      body := some [
        ("whitelabel_name", args.get "whitelabel_name"),
        ("whitelabel_description", args.get "whitelabel_description"),
        ("whitelabel_domain", args.get "whitelabel_domain"),
        ("whitelabel_color", args.get "whitelabel_color")] }
  | "update_smtp" =>
    pure {
      url := self.baseUrl ++ "/user/smtp"
      method := "PATCH"
      body := some [
        ("smtp_email", args.get "smtp_email"),
        ("smtp_password", args.get "smtp_password"),
        ("smtp_host", args.get "smtp_host"),
        ("smtp_port", args.get "smtp_port")] }
  | "update_openai_token" =>
    pure {
      url := self.baseUrl ++ "/openai/oauth"
      method := "POST"
      body := some [("openai_token", args.get "openai_token")] }
  | "update_elevenlabs_token" =>
    pure {
      url := self.baseUrl ++ "/elevenlabs/oauth"
      method := "POST"
      body := some [("elevenlabs_token", args.get "elevenlabs_token")] }
  | "update_deepseek_token" =>
    pure {
      url := self.baseUrl ++ "/deepseek/oauth"
      method := "POST"
      body := some [("deepseek_token", args.get "deepseek_token")] }
  | "update_gemini_token" =>
    pure {
      url := self.baseUrl ++ "/gemini/oauth"
      method := "POST"
      body := some [("gemini_token", args.get "gemini_token")] }
  | "update_openrouter_token" =>
    pure {
      url := self.baseUrl ++ "/openrouter/oauth"
      method := "POST"
      body := some [("openrouter_token", args.get "openrouter_token")] }
  | "get_assistants" => pure { url := self.baseUrl ++ "/assistants" }
  | "get_assistant" => do
    let id ← (args.get "assistant_id").toStr
    pure { url := self.baseUrl ++ "/assistants/" ++ id }
  | "get_one_assistant" => do
    let id ← (args.get "assistant_id").toStr
    pure { url := self.baseUrl ++ "/assistants/one/" ++ id }
  | "create_assistant" =>
    pure {
      url := self.baseUrl ++ "/assistants"
      method := "POST"
      body := some (filterEmptyValues args) }
  | "update_assistant" => do
    let id ← (args.get "assistant_id").toStr
    let updateData := args.rest "assistant_id"
    pure {
      url := self.baseUrl ++ "/assistants/" ++ id
      method := "PATCH"
      body := some (filterEmptyValues updateData) }
  | "delete_assistant" => do
    let id ← (args.get "assistant_id").toStr
    pure { url := self.baseUrl ++ "/assistants/" ++ id, method := "DELETE" }
  | "get_assistant_files" => do
    let id ← (args.get "assistant_id").toStr
    pure { url := self.baseUrl ++ "/assistants/" ++ id ++ "/files" }
  | "delete_assistant_file" => do
    let id ← (args.get "assistant_id").toStr
    let file ← (args.get "file_id").toStr
    pure {
      url := self.baseUrl ++ "/assistants/" ++ id ++ "/files/" ++ file
      method := "DELETE" }
  | "get_assistant_usage" => do
    let id ← (args.get "assistant_id").toStr
    pure { url := self.baseUrl ++ "/assistants/" ++ id ++ "/usage" }
  | "get_assistants_token_usage" =>
    pure { url := self.baseUrl ++ "/assistants/all/token/usage" }
  | "get_dashboard_assistant" =>
    pure { url := self.baseUrl ++ "/assistants/gohighlevel/dashboard" }
  | "chat_with_assistant" => do
    let id ← (args.get "assistant_id").toStr
    let audio ← (orFalse (args.get "audio")).toStr
    pure {
      url := self.baseUrl ++ "/assistants/" ++ id ++ "/chat?audio=" ++ audio
      method := "POST"
      body := some [("message", args.get "message"), ("thread_id", args.get "thread_id")] }
  | "connect_twilio" =>
    pure {
      url := self.baseUrl ++ "/twilio/oauth"
      method := "POST"
      body := some [("sid", args.get "twilio_sid"), ("token", args.get "twilio_token")] }
  | "disconnect_twilio" => pure { url := self.baseUrl ++ "/twilio/", method := "DELETE" }
  | "get_twilio_numbers" => pure { url := self.baseUrl ++ "/twilio/numbers" }
  | "get_available_numbers" => do
    let params : URLSearchParams := []
    let params ← appendIfTruthy params "code" (args.get "country_code")
    let params ← appendIfTruthy params "type" (args.get "number_type")
    let params ← appendIfTruthy params "search" (args.get "search_pattern")
    let params ← appendIfTruthy params "locality" (args.get "locality")
    pure { url := self.baseUrl ++ "/twilio/numbers/available?" ++ params.toString }
  | "buy_twilio_number" =>
    pure {
      url := self.baseUrl ++ "/twilio/number/buy"
      method := "POST"
      body := some [("phoneNumber", args.get "phone_number")] }
  | "update_twilio_number" => do
    let sid ← (args.get "number_sid").toStr
    let body : Object := []
    let body := setIfTruthy body "name" (args.get "friendly_name")
    let body := setIfTruthy body "webhook" (args.get "voice_webhook")
    let body := setIfTruthy body "smsWebhook" (args.get "sms_webhook")
    pure { url := self.baseUrl ++ "/twilio/numbers/" ++ sid, method := "PATCH", body := some body }
  | "get_twilio_usage" => do
    let usageParams : URLSearchParams := []
    let usageParams ← appendIfTruthy usageParams "start" (args.get "start_date")
    let usageParams ← appendIfTruthy usageParams "end" (args.get "end_date")
    let usageParams ← appendTextIfTruthy usageParams "limit" (args.get "limit")
    pure { url := self.baseUrl ++ "/twilio/usage?" ++ usageParams.toString }
  | "make_call" => do
    let id ← (args.get "assistant_id").toStr
    let body : Object := [("phonenumber", args.get "phone_number")]
    let body :=
      if (args.get "contact_id").truthy then
        Object.setProp (Object.setProp body "contact_id" (args.get "contact_id")) "customData"
          (.obj [("phonenumber", args.get "phone_number")])
      else body
    pure { url := self.baseUrl ++ "/twilio/" ++ id ++ "/call", method := "POST", body := some body }
  | "make_bulk_call" => do
    let id ← (args.get "assistant_id").toStr
    let bulk ← (args.get "contact_bulk_id").toStr
    pure {
      url := self.baseUrl ++ "/twilio/" ++ id ++ "/callbulk/" ++ bulk
      method := "POST"
      body := some [] }
  | "get_calls_in_progress" => pure { url := self.baseUrl ++ "/twilio/calls" }
  | "cancel_call" => do
    let id ← (args.get "call_id").toStr
    pure { url := self.baseUrl ++ "/twilio/calls/" ++ id, method := "DELETE" }
  | "send_sms" => do
    let id ← (args.get "assistant_id").toStr
    let body : Object :=
      [("phonenumber", args.get "phone_number"), ("message", args.get "message")]
    let body :=
      if (args.get "contact_id").truthy then
        Object.setProp (Object.setProp body "contact_id" (args.get "contact_id")) "customData"
          (.obj [("phonenumber", args.get "phone_number"), ("message", args.get "message")])
      else body
    pure { url := self.baseUrl ++ "/twilio/" ++ id ++ "/sms", method := "POST", body := some body }
  | _ => throw (.error ("Unknown tool: " ++ toolName))

/-- The argument names each `case` of the `switch` reads as `args.<name>`, in source
order; `create_assistant` and `update_assistant` also pass every key of `args` to
`filterEmptyValues`. -/
def argumentsRead (toolName : String) : List String :=
  match toolName with
  | "update_white_label" =>
    ["whitelabel_name", "whitelabel_description", "whitelabel_domain", "whitelabel_color"]
  | "update_smtp" => ["smtp_email", "smtp_password", "smtp_host", "smtp_port"]
  | "update_openai_token" => ["openai_token"]
  | "update_elevenlabs_token" => ["elevenlabs_token"]
  | "update_deepseek_token" => ["deepseek_token"]
  | "update_gemini_token" => ["gemini_token"]
  | "update_openrouter_token" => ["openrouter_token"]
  | "get_assistant" => ["assistant_id"]
  | "get_one_assistant" => ["assistant_id"]
  | "update_assistant" => ["assistant_id"]
  | "delete_assistant" => ["assistant_id"]
  | "get_assistant_files" => ["assistant_id"]
  | "delete_assistant_file" => ["assistant_id", "file_id"]
  | "get_assistant_usage" => ["assistant_id"]
  | "chat_with_assistant" => ["assistant_id", "audio", "message", "thread_id"]
  | "connect_twilio" => ["twilio_sid", "twilio_token"]
  | "get_available_numbers" => ["country_code", "number_type", "search_pattern", "locality"]
  | "buy_twilio_number" => ["phone_number"]
  | "update_twilio_number" => ["number_sid", "friendly_name", "voice_webhook", "sms_webhook"]
  | "get_twilio_usage" => ["start_date", "end_date", "limit"]
  | "make_call" => ["assistant_id", "phone_number", "contact_id"]
  | "make_bulk_call" => ["assistant_id", "contact_bulk_id"]
  | "cancel_call" => ["call_id"]
  | "send_sms" => ["assistant_id", "phone_number", "message", "contact_id"]
  | _ => []

/-- The two headers of every request; the template prints a missing key as
`undefined`. -/
def headers (self : Server) : List (String × String) :=
  [("Authorization", "Bearer " ++ (match self.apiKey with
      | some key => key
      | none => "undefined")),
   ("Content-Type", "application/json")]

/-- The `options` passed to `fetch`: the method, the headers and, when `body` is not
`null`, its JSON text. -/
def options (self : Server) (locals : Locals) : FetchCall :=
  { url := locals.url
    method := locals.method
    headers := headers self
    body := locals.body.bind (fun body => JSON.stringify (.obj body)) }

/-- What a call leaves behind: the value returned or the error thrown, and the
`fetch` calls issued on the way, oldest first. -/
structure Outcome where
  result : Except Error Value
  calls : List FetchCall

/-- Source `executeTool(toolName, args)`. -/
def executeTool (self : Server) (backend : Backend) (toolName : String) (args : Object) :
    Outcome :=
  match switch self toolName args with
  | .error thrown => { result := .error thrown, calls := [] }
  | .ok locals =>
    match backend (options self locals) with
    | .error rejected => { result := .error rejected, calls := [options self locals] }
    | .ok response =>
      if !response.ok then
        match response.text with
        | .error rejected => { result := .error rejected, calls := [options self locals] }
        | .ok errorText =>
          { result := .error (.error ("API request failed: " ++ toString response.status ++
              " " ++ response.statusText ++ " - " ++ errorText))
            calls := [options self locals] }
      else { result := response.json, calls := [options self locals] }

/-- The error codes the call-tool handler uses. -/
inductive ErrorCode where
  | InvalidRequest
  | InternalError
  deriving DecidableEq, Repr

/-- The numbers of the error codes in the SDK's `ErrorCode`. -/
def ErrorCode.number : ErrorCode → Int
  | .InvalidRequest => -32600
  | .InternalError => -32603

/-- A thrown `McpError`: its `code` and its `message` property. -/
structure McpError where
  code : ErrorCode
  message : String
  deriving DecidableEq, Repr

/-- The SDK constructor `new McpError(code, message)`: it stores the code and calls
`super` with the text `MCP error <code>: <message>`, which becomes the `message` of
the error. -/
def McpError.new (code : ErrorCode) (message : String) : McpError :=
  { code := code, message := "MCP error " ++ toString code.number ++ ": " ++ message }

/-- One item of a tool result's `content`. -/
structure TextContent where
  type : String
  text : Option String
  deriving DecidableEq, Repr

/-- The value the call-tool handler returns. -/
structure CallToolResult where
  content : List TextContent
  deriving DecidableEq, Repr

/-- The `params` of a call-tool request: `arguments` may be absent. -/
structure CallToolParams where
  name : String
  arguments : Option Object

/-- What the call-tool handler leaves behind: its result or the `McpError` thrown, the
invocations of `executeTool`, and the `fetch` calls issued. -/
structure Handled where
  reply : Except McpError CallToolResult
  executed : List (String × Object)
  calls : List FetchCall

/-- The condition `!this.apiKey`: the key is `undefined` or the empty string. -/
def Server.apiKeyMissing (self : Server) : Bool :=
  match self.apiKey with
  | none => true
  | some key => decide (key = "")

/-- The handler registered for `CallToolRequestSchema`. -/
def callToolHandler (self : Server) (backend : Backend) (params : CallToolParams) : Handled :=
  if self.apiKeyMissing then
    { reply := .error
        (McpError.new .InvalidRequest "VAVICKY_API_KEY environment variable is required")
      executed := []
      calls := [] }
  else
    let args := params.arguments.getD []
    let outcome := executeTool self backend params.name args
    match outcome.result with
    | .ok result =>
      { reply := .ok { content := [{ type := "text", text := JSON.stringifyIndented result }] }
        executed := [(params.name, args)]
        calls := outcome.calls }
    | .error error =>
      { reply := .error
          (McpError.new .InternalError ("Tool execution failed: " ++ error.message))
        executed := [(params.name, args)]
        calls := outcome.calls }

end VavickyMCPServer

namespace Wrapper

open JS VavickyMCPServer

/-- The fields `toolName` and `args` of the JSON body posted to `/call-tool`: a
string and a mapping, each of which may be absent. -/
structure CallToolBody where
  toolName : Option String
  args : Option Object

/-- The response of the route: a status and the object given to `res.json`. -/
structure HttpReply where
  status : Nat
  json : Object

/-- What the route leaves behind: its response, the invocations of `executeTool` and
the `fetch` calls issued. -/
structure Served where
  reply : HttpReply
  executed : List (String × Object)
  calls : List FetchCall

/-- The text sent with status 400. -/
def badRequest : HttpReply :=
  { status := 400, json := [("error", .str "toolName and args are required")] }

/-- The handler of `POST /call-tool`. The guard `!toolName || typeof args !== 'object'`
holds when the tool name is absent or empty, or the mapping is absent. -/
def callTool (vavicky : Server) (backend : Backend) (body : CallToolBody) : Served :=
  if (body.toolName.getD "" = "") ∨ body.args.isNone then
    { reply := badRequest, executed := [], calls := [] }
  else
    let toolName := body.toolName.getD ""
    let args := body.args.getD []
    let outcome := executeTool vavicky backend toolName args
    match outcome.result with
    | .ok result =>
      { reply := { status := 200, json := [("success", .bool true), ("result", result)] }
        executed := [(toolName, args)]
        calls := outcome.calls }
    | .error err =>
      { reply := { status := 500, json := [("success", .bool false), ("error", .str err.message)] }
        executed := [(toolName, args)]
        calls := outcome.calls }

end Wrapper

/-! ## Lemmas on the JavaScript fragment and on the translation -/

namespace JS.Object

theorem getOwn_cons (p : String × Value) (o : Object) (k : String) :
    getOwn (p :: o) k = if p.1 = k then some p.2 else getOwn o k := by
  cases p; rfl

theorem getOwn_eq_none_of_not_mem (o : Object) (k : String) (h : k ∉ keys o) :
    getOwn o k = none := by
  induction o with
  | nil => rfl
  | cons p o ih =>
    simp only [keys, List.map_cons, List.mem_cons, not_or] at h
    rw [getOwn_cons, if_neg (fun e => h.1 e.symm)]
    exact ih h.2

theorem mem_keys_of_getOwn (o : Object) (k : String) (v : Value) (h : getOwn o k = some v) :
    k ∈ keys o := by
  by_contra hk
  rw [getOwn_eq_none_of_not_mem o k hk] at h
  cases h

theorem getOwn_append (o o2 : Object) (k : String) :
    getOwn (o ++ o2) k = (getOwn o k).or (getOwn o2 k) := by
  induction o with
  | nil => simp [getOwn]
  | cons p o ih =>
    rw [List.cons_append, getOwn_cons, getOwn_cons]
    split
    · rfl
    · exact ih

theorem getOwn_insertIndexed (o : Object) (k : String) (n : Nat) (v : Value) (k2 : String)
    (h : getOwn o k = none) :
    getOwn (insertIndexed o k n v) k2 = if k = k2 then some v else getOwn o k2 := by
  induction o with
  | nil => simp [insertIndexed, getOwn]
  | cons p o ih =>
    rw [getOwn_cons] at h
    have hp : p.1 ≠ k := by
      intro e; rw [if_pos e] at h; cases h
    rw [if_neg hp] at h
    unfold insertIndexed
    split
    · split
      · rw [getOwn_cons, getOwn_cons, ih h]
        by_cases e : p.1 = k2
        · have : k ≠ k2 := fun e2 => hp (e.trans e2.symm)
          simp [e, this]
        · simp [e]
      · rw [getOwn_cons]
    · rw [getOwn_cons]

theorem getOwn_map_set (o : Object) (k : String) (v : Value) (k2 : String) :
    getOwn (o.map (fun p => if p.1 = k then (p.1, v) else p)) k2 =
      if k = k2 then (getOwn o k2).map (fun _ => v) else getOwn o k2 := by
  induction o with
  | nil => simp [getOwn]
  | cons p o ih =>
    rw [List.map_cons, getOwn_cons, getOwn_cons, ih]
    by_cases e : p.1 = k
    · by_cases e2 : k = k2
      · simp [e, e2]
      · have : ¬ p.1 = k2 := fun e3 => e2 (e.symm.trans e3)
        simp [e, e2, this]
    · by_cases e2 : k = k2
      · have : ¬ p.1 = k2 := fun e3 => e (e3.trans e2.symm)
        simp [e, e2, this]
      · simp [e, e2]

/-- Reading back after `o[k] = v`. -/
theorem getOwn_setProp (o : Object) (k : String) (v : Value) (k2 : String) :
    getOwn (setProp o k v) k2 =
      if k = k2 ∧ k ≠ "__proto__" then some v else getOwn o k2 := by
  unfold setProp
  by_cases hp : k = "__proto__"
  · simp [hp]
  · rw [if_neg hp]
    by_cases hk : hasOwn o k = true
    · rw [if_pos hk, getOwn_map_set]
      by_cases e : k = k2
      · subst e
        simp only [hasOwn, Option.isSome_iff_exists] at hk
        obtain ⟨w, hw⟩ := hk
        simp [hp, hw]
      · simp [e]
    · rw [if_neg hk]
      have hnone : getOwn o k = none := by
        simpa [hasOwn] using hk
      split
      · rw [getOwn_insertIndexed o k _ v k2 hnone]
        simp [hp]
      · rw [getOwn_append]
        by_cases e : k = k2
        · subst e; simp [hnone, getOwn, hp]
        · simp [getOwn, e]

end JS.Object

namespace JS.Value

theorem isUndefined_iff (v : Value) : v.isUndefined = true ↔ v = .undefined := by
  cases v <;> simp [isUndefined]

theorem isNull_iff (v : Value) : v.isNull = true ↔ v = .null := by
  cases v <;> simp [isNull]

theorem isEmptyString_iff (v : Value) : v.isEmptyString = true ↔ v = .str "" := by
  cases v <;> simp [isEmptyString]

theorem nonEmpty_iff (v : Value) :
    v.nonEmpty = true ↔ v ≠ .undefined ∧ v ≠ .null ∧ v ≠ .str "" := by
  simp only [nonEmpty, Bool.and_eq_true, Bool.not_eq_true', ne_eq, ← isUndefined_iff,
    ← isNull_iff, ← isEmptyString_iff, Bool.not_eq_true, and_assoc]

end JS.Value

namespace VavickyMCPServer

open JS JS.Object

/-- The loop body of `filterEmptyValues`. -/
theorem filter_step_getOwn (cleaned : Object) (entry : String × Value) (k : String) :
    getOwn (if entry.2.nonEmpty then Object.setProp cleaned entry.1 entry.2 else cleaned) k =
      if entry.1 = k ∧ k ≠ "__proto__" ∧ entry.2.nonEmpty = true then some entry.2
      else getOwn cleaned k := by
  by_cases hk : entry.2.nonEmpty = true
  · rw [if_pos hk, getOwn_setProp]
    by_cases e : entry.1 = k
    · subst e; simp [hk]
    · simp [e]
  · simp [hk]

theorem filter_foldl_getOwn (l : Object) (acc : Object) (k : String) (hnd : (keys l).Nodup) :
    getOwn (l.foldl (fun cleaned entry =>
        if entry.2.nonEmpty then Object.setProp cleaned entry.1 entry.2 else cleaned) acc) k =
      match getOwn l k with
      | some v => if k ≠ "__proto__" ∧ v.nonEmpty = true then some v else getOwn acc k
      | none => getOwn acc k := by
  induction l generalizing acc with
  | nil => rfl
  | cons p l ih =>
    simp only [keys, List.map_cons, List.nodup_cons] at hnd
    rw [List.foldl_cons, ih _ hnd.2, filter_step_getOwn, getOwn_cons]
    by_cases e : p.1 = k
    · subst e
      have : getOwn l p.1 = none := getOwn_eq_none_of_not_mem l p.1 hnd.1
      simp [this]
    · simp [e]

/-- Own properties of the filtered copy of an object with distinct property names. -/
theorem getOwn_filterEmptyValues (obj : Object) (k : String) (hnd : (keys obj).Nodup) :
    getOwn (filterEmptyValues obj) k =
      match getOwn obj k with
      | some v => if k ≠ "__proto__" ∧ v.nonEmpty = true then some v else none
      | none => none := by
  unfold filterEmptyValues
  rw [filter_foldl_getOwn obj [] k hnd]
  rfl

theorem filter_foldl_mem (l : Object) (acc : Object) (k : String) (v : Value)
    (h : getOwn (l.foldl (fun cleaned entry =>
        if entry.2.nonEmpty then Object.setProp cleaned entry.1 entry.2 else cleaned) acc) k =
          some v) :
    getOwn acc k = some v ∨ (k ≠ "__proto__" ∧ v.nonEmpty = true ∧ (k, v) ∈ l) := by
  induction l generalizing acc with
  | nil => exact Or.inl h
  | cons p l ih =>
    rw [List.foldl_cons] at h
    rcases ih _ h with h1 | h1
    · rw [filter_step_getOwn] at h1
      split at h1
      · rename_i hc
        right
        cases h1
        refine ⟨hc.2.1, hc.2.2, ?_⟩
        rw [← hc.1]
        exact List.mem_cons_self _ _
      · exact Or.inl h1
    · exact Or.inr ⟨h1.1, h1.2.1, List.mem_cons_of_mem _ h1.2.2⟩

/-- Every own property of the filtered copy is a non-empty entry of the object, and
is not named `__proto__`. -/
theorem mem_of_getOwn_filterEmptyValues (obj : Object) (k : String) (v : Value)
    (h : getOwn (filterEmptyValues obj) k = some v) :
    k ≠ "__proto__" ∧ v.nonEmpty = true ∧ (k, v) ∈ obj := by
  rcases filter_foldl_mem obj [] k v h with h1 | h1
  · cases h1
  · exact h1

end VavickyMCPServer

namespace JS.Value

theorem itemText_thrown (v : Value) (text : Except Error String) (e : Error)
    (h : itemText v text = .error e) : text = .error e := by
  unfold itemText at h
  split at h
  · cases h
  · exact h

mutual
/-- The only error a text conversion raises is the `TypeError` of an object that
shadows `toString`. -/
theorem toStr_thrown (v : Value) (e : Error) (h : toStr v = .error e) :
    e = .typeError "Cannot convert object to primitive value" := by
  cases v with
  | undefined => cases h
  | null => cases h
  | bool b => cases h
  | num n => cases h
  | str s => cases h
  | arr items =>
    rw [toStr] at h
    exact joinItems_thrown items e h
  | obj props =>
    rw [toStr] at h
    split at h
    · cases h; rfl
    · cases h
termination_by structural v
theorem joinItems_thrown (l : List Value) (e : Error) (h : joinItems l = .error e) :
    e = .typeError "Cannot convert object to primitive value" := by
  cases l with
  | nil => cases h
  | cons v more =>
    cases more with
    | nil =>
      rw [joinItems] at h
      exact toStr_thrown v e (itemText_thrown v _ e h)
    | cons w more =>
      rw [joinItems] at h
      cases h1 : itemText v (toStr v) with
      | error e1 =>
        rw [h1] at h
        cases h
        exact toStr_thrown v e (itemText_thrown v _ e h1)
      | ok a =>
        rw [h1] at h
        cases h2 : joinItems (w :: more) with
        | error e2 =>
          rw [h2] at h
          cases h
          exact joinItems_thrown (w :: more) e h2
        | ok b =>
          rw [h2] at h
          cases h
termination_by structural l
end

end JS.Value

namespace JS

/-- A computation that throws, if at all, a `TypeError`. -/
theorem Error.typeError_ne_error (a m : String) : Error.typeError a ≠ Error.error m := by
  intro h; cases h

theorem noPlain_pure {α : Type} (a : α) (m : String) :
    (pure a : Except Error α) ≠ .error (.error m) := by
  intro h; cases h

theorem noPlain_bind {α β : Type} (r : Except Error α) (f : α → Except Error β)
    (hr : ∀ m, r ≠ .error (.error m)) (hf : ∀ a m, f a ≠ .error (.error m)) (m : String) :
    (r >>= f) ≠ .error (.error m) := by
  cases r with
  | error e =>
    intro h
    cases h
    exact hr m rfl
  | ok a => exact hf a m

theorem noPlain_toStr (v : Value) (m : String) : v.toStr ≠ .error (.error m) := by
  intro h
  have := Value.toStr_thrown v _ h
  cases this

theorem noPlain_callToString (v : Value) (callee : String) (m : String) :
    v.callToString callee ≠ .error (.error m) := by
  unfold Value.callToString
  split
  · intro h; cases h
  · intro h; cases h
  · split
    · intro h; cases h
    · intro h; cases h
  · exact noPlain_toStr _ m

theorem noPlain_append (params : URLSearchParams) (name : String) (v : Value) (m : String) :
    params.append name v ≠ .error (.error m) :=
  noPlain_bind _ _ (noPlain_toStr v) (fun _ => noPlain_pure _) m

end JS

namespace VavickyMCPServer

open JS JS.Object

theorem noPlain_appendIfTruthy (params : URLSearchParams) (name : String) (v : Value)
    (m : String) : appendIfTruthy params name v ≠ .error (.error m) := by
  unfold appendIfTruthy
  split
  · exact noPlain_append _ _ _ m
  · exact noPlain_pure _ m

theorem noPlain_appendTextIfTruthy (params : URLSearchParams) (name : String) (v : Value)
    (m : String) : appendTextIfTruthy params name v ≠ .error (.error m) := by
  unfold appendTextIfTruthy
  split
  · exact noPlain_bind _ _ (noPlain_callToString v _) (fun _ => noPlain_append _ _ _) m
  · exact noPlain_pure _ m

/-- A tool name outside the `case` labels reaches the `default` branch. -/
theorem switch_default (self : Server) (toolName : String) (args : Object)
    (h : toolName ∉ caseLabels) :
    switch self toolName args = .error (.error ("Unknown tool: " ++ toolName)) := by
  simp only [caseLabels, List.mem_cons, List.mem_singleton, not_or, List.mem_nil_iff,
    not_false_eq_true, and_true] at h
  unfold switch
  split <;> first | rfl | (exfalso; simp_all)

/-- A `case` label never reaches the `default` branch: the only error its branch can
throw is a `TypeError`. -/
theorem switch_case (self : Server) (toolName : String) (args : Object)
    (h : toolName ∈ caseLabels) (m : String) :
    switch self toolName args ≠ .error (.error m) := by
  simp only [caseLabels, List.mem_cons, List.mem_singleton, List.mem_nil_iff, or_false] at h
  rcases h with h | h | h | h | h | h | h | h | h | h | h | h | h | h | h | h | h | h | h | h |
    h | h | h | h | h | h | h | h | h | h | h | h <;> subst h <;>
  repeat (first
    | exact noPlain_pure _ m
    | exact noPlain_toStr _ m
    | exact noPlain_appendIfTruthy _ _ _ m
    | exact noPlain_appendTextIfTruthy _ _ _ m
    | refine noPlain_bind _ _ (fun m => ?_) (fun _ m => ?_) m)

end VavickyMCPServer

namespace JS.Object

theorem hasOwn_of_mem (o : Object) (k : String) (v : Value) (h : (k, v) ∈ o) :
    hasOwn o k = true := by
  induction o with
  | nil => cases h
  | cons p o ih =>
    simp only [hasOwn, getOwn_cons]
    split
    · rfl
    · rename_i hne
      rcases List.mem_cons.1 h with e | e
      · exact absurd (by rw [← e]) hne
      · exact ih e

theorem getOwn_rest (o : Object) (k0 k : String) :
    getOwn (rest o k0) k = if k = k0 then none else getOwn o k := by
  induction o with
  | nil => simp [rest, getOwn]
  | cons p o ih =>
    unfold rest at ih ⊢
    rw [List.filter_cons]
    by_cases e : p.1 = k0
    · simp only [e, ne_eq, not_true_eq_false, decide_False, Bool.false_eq_true, if_false, ih,
        getOwn_cons]
      by_cases e2 : k = k0
      · simp [e2]
      · have : ¬ k0 = k := fun h => e2 h.symm
        simp [e2, this]
    · simp only [ne_eq, e, not_false_eq_true, decide_True, if_true, getOwn_cons, ih]
      by_cases e2 : p.1 = k
      · have : ¬ k = k0 := fun h => e (e2.trans h)
        simp [e2, this]
      · simp [e2]

end JS.Object

namespace VavickyMCPServer

open JS JS.Object

theorem toStr_get_of_absent_or_string (args : Object) (p : String)
    (h : Object.getOwn args p = none ∨ ∃ s, Object.getOwn args p = some (.str s)) :
    (Object.get args p).toStr = .ok (Object.templateText args p) := by
  rcases h with h | ⟨s, h⟩ <;> simp [Object.templateText, Object.get, h, Value.toStr, pure,
    Except.pure]

theorem exists_locals_of_url (r : Except Error Locals) (u : String)
    (h : r.map Locals.url = .ok u) : ∃ locals, r = .ok locals ∧ locals.url = u := by
  cases r with
  | error e => cases h
  | ok locals =>
    refine ⟨locals, rfl, ?_⟩
    simpa [Except.map] using h

/-- Once the `switch` leaves a request, `executeTool` issues it, once. -/
theorem executeTool_calls (self : Server) (backend : Backend) (toolName : String)
    (args : Object) (locals : Locals) (h : switch self toolName args = .ok locals) :
    (executeTool self backend toolName args).calls = [options self locals] := by
  unfold executeTool
  rw [h]
  dsimp only
  split
  · rfl
  · split
    · split <;> rfl
    · rfl

theorem truthy_get_hasOwn (args : Object) (k : String)
    (h : (Object.get args k).truthy = true) : Object.hasOwn args k = true := by
  unfold Object.get at h
  unfold Object.hasOwn
  cases hk : Object.getOwn args k with
  | none => rw [hk] at h; cases h
  | some v => rfl

theorem appendIfTruthy_filter (params : URLSearchParams) (name : String) (args : Object)
    (p : String)
    (h : Object.getOwn args p = none ∨ ∃ s, s ≠ "" ∧ Object.getOwn args p = some (.str s)) :
    appendIfTruthy params name (Object.get args p) =
      .ok (params ++ (match Object.getOwn args p with
        | some (.str s) => [(name, s)]
        | _ => [])) := by
  rcases h with h | ⟨s, hs, h⟩
  · simp [appendIfTruthy, Object.get, h, Value.truthy, pure, Except.pure]
  · simp [appendIfTruthy, Object.get, h, Value.truthy, hs, URLSearchParams.append, Value.toStr,
      pure, Except.pure, bind, Except.bind]

end VavickyMCPServer

namespace VavickyMCPServer

open JS JS.Object

theorem appendIfTruthy_string_or_absent (params : URLSearchParams) (name : String)
    (args : Object) (p : String)
    (h : Object.getOwn args p = none ∨ ∃ s, Object.getOwn args p = some (.str s)) :
    appendIfTruthy params name (Object.get args p) =
      .ok (params ++ (match Object.getOwn args p with
        | some (.str s) => if s = "" then [] else [(name, s)]
        | _ => [])) := by
  rcases h with h | ⟨s, h⟩
  · simp [appendIfTruthy, Object.get, h, Value.truthy, pure, Except.pure]
  · by_cases hs : s = ""
    · simp [appendIfTruthy, Object.get, h, Value.truthy, hs, pure, Except.pure]
    · simp [appendIfTruthy, Object.get, h, Value.truthy, hs, URLSearchParams.append,
        Value.toStr, pure, Except.pure, bind, Except.bind]

theorem appendTextIfTruthy_number_or_absent (params : URLSearchParams) (name : String)
    (args : Object) (p : String)
    (h : Object.getOwn args p = none ∨ ∃ t, Object.getOwn args p = some (.num t)) :
    appendTextIfTruthy params name (Object.get args p) =
      .ok (params ++ (match Object.getOwn args p with
        | some (.num t) => if t = "0" ∨ t = "NaN" then [] else [(name, t)]
        | _ => [])) := by
  rcases h with h | ⟨t, h⟩
  · simp [appendTextIfTruthy, Object.get, h, Value.truthy, pure, Except.pure]
  · by_cases hn : t = "0" ∨ t = "NaN"
    · rcases hn with hn | hn <;>
        simp [appendTextIfTruthy, Object.get, h, Value.truthy, hn, pure, Except.pure]
    · have h0 : t ≠ "0" := fun e => hn (Or.inl e)
      have h1 : t ≠ "NaN" := fun e => hn (Or.inr e)
      simp [appendTextIfTruthy, Object.get, h, Value.truthy, h0, h1, URLSearchParams.append,
        Value.toStr, Value.callToString, pure, Except.pure, bind, Except.bind]

theorem McpError.new_internalError (m : String) :
    McpError.new .InternalError ("Tool execution failed: " ++ m) =
      { code := .InternalError, message := "MCP error -32603: Tool execution failed: " ++ m } := by
  have h : "MCP error " ++ toString ErrorCode.InternalError.number ++ ": " =
      "MCP error -32603: " := by decide
  have h2 : "MCP error -32603: " ++ "Tool execution failed: " =
      "MCP error -32603: Tool execution failed: " := by decide
  unfold McpError.new
  rw [h, ← String.append_assoc, h2]

theorem callToolHandler_calls (self : Server) (backend : Backend) (params : CallToolParams)
    (hkey : self.apiKeyMissing = false) :
    (callToolHandler self backend params).calls =
        (executeTool self backend params.name (params.arguments.getD [])).calls ∧
      (callToolHandler self backend params).executed =
        [(params.name, params.arguments.getD [])] := by
  unfold callToolHandler
  simp only [hkey, Bool.false_eq_true, if_false]
  split <;> exact ⟨rfl, rfl⟩

theorem zero_argument_tools (tool : Tool) (ht : tool ∈ tools)
    (hz : tool.inputSchema.properties = []) :
    tool.name ∈ ["get_user", "get_assistants", "get_assistants_token_usage",
      "get_dashboard_assistant", "disconnect_twilio", "get_twilio_numbers",
      "get_calls_in_progress"] := by
  have h : ∀ t ∈ tools, t.inputSchema.properties = [] →
      t.name ∈ ["get_user", "get_assistants", "get_assistants_token_usage",
        "get_dashboard_assistant", "disconnect_twilio", "get_twilio_numbers",
        "get_calls_in_progress"] := by decide
  exact h tool ht hz

end VavickyMCPServer

namespace JS

theorem ok_pure {α : Type} (a : α) : ∃ x, (pure a : Except Error α) = .ok x := ⟨a, rfl⟩

theorem ok_bind {α β : Type} (r : Except Error α) (f : α → Except Error β)
    (hr : ∃ a, r = .ok a) (hf : ∀ a, ∃ b, f a = .ok b) : ∃ b, (r >>= f) = .ok b := by
  obtain ⟨a, ha⟩ := hr
  subst ha
  exact hf a

theorem ok_callToString (v : Value) (callee : String) (ht : v.truthy = true)
    (h : ∃ s, v.toStr = .ok s) : ∃ s, v.callToString callee = .ok s := by
  cases v with
  | undefined => cases ht
  | null => cases ht
  | bool b => exact h
  | num n => exact h
  | str s => exact h
  | arr items => exact h
  | obj props =>
    obtain ⟨s, hs⟩ := h
    rw [Value.toStr] at hs
    unfold Value.callToString
    split at hs
    · cases hs
    · rename_i hn
      refine ⟨"[object Object]", ?_⟩
      show (if _ then _ else _) = _
      rw [if_neg hn]
      rfl

theorem ok_append (params : URLSearchParams) (name : String) (v : Value)
    (h : ∃ s, v.toStr = .ok s) : ∃ p, params.append name v = .ok p :=
  ok_bind _ _ h (fun _ => ok_pure _)

end JS

namespace VavickyMCPServer

open JS JS.Object

theorem ok_orFalse (v : Value) (h : ∃ s, v.toStr = .ok s) :
    ∃ s, (orFalse v).toStr = .ok s := by
  unfold orFalse
  split
  · exact h
  · exact ⟨"false", rfl⟩

theorem ok_appendIfTruthy (params : URLSearchParams) (name : String) (v : Value)
    (h : ∃ s, v.toStr = .ok s) : ∃ p, appendIfTruthy params name v = .ok p := by
  unfold appendIfTruthy
  split
  · exact ok_append _ _ _ h
  · exact ok_pure _

theorem ok_appendTextIfTruthy (params : URLSearchParams) (name : String) (v : Value)
    (h : ∃ s, v.toStr = .ok s) : ∃ p, appendTextIfTruthy params name v = .ok p := by
  unfold appendTextIfTruthy
  split
  · rename_i ht
    exact ok_bind _ _ (ok_callToString v _ ht h) (fun _ => ok_append _ _ _ ⟨_, rfl⟩)
  · exact ok_pure _

/-- A `case` label leaves a request whenever the arguments it prints convert to
text. -/
theorem switch_ok (self : Server) (toolName : String) (args : Object)
    (hknown : toolName ∈ caseLabels)
    (htext : ∀ k : String, ∃ s, (Object.get args k).toStr = .ok s) :
    ∃ locals, switch self toolName args = .ok locals := by
  simp only [caseLabels, List.mem_cons, List.mem_singleton, List.mem_nil_iff, or_false]
    at hknown
  rcases hknown with h | h | h | h | h | h | h | h | h | h | h | h | h | h | h | h | h | h |
    h | h | h | h | h | h | h | h | h | h | h | h | h | h <;> subst h <;>
  repeat (first
    | exact ok_pure _
    | exact htext _
    | exact ok_orFalse _ (htext _)
    | exact ok_appendIfTruthy _ _ _ (htext _)
    | exact ok_appendTextIfTruthy _ _ _ (htext _)
    | refine ok_bind _ _ ?_ (fun _ => ?_))

end VavickyMCPServer

namespace JS

theorem all_pure {α : Type} (P : α → Prop) (a : α) (h : P a) :
    ∀ x, (pure a : Except Error α) = .ok x → P x := by
  intro x hx
  cases hx
  exact h

theorem all_bind {α β : Type} (P : β → Prop) (r : Except Error α) (f : α → Except Error β)
    (hf : ∀ a x, f a = .ok x → P x) : ∀ x, (r >>= f) = .ok x → P x := by
  intro x hx
  cases r with
  | error e => cases hx
  | ok a => exact hf a x hx

theorem stringify_obj_isSome (body : Object) : (JSON.stringify (.obj body)).isSome = true := by
  rw [JSON.stringify, JSON.serialize]
  rfl

end JS

namespace VavickyMCPServer

open JS JS.Object

theorem options_body_isSome (self : Server) (locals : Locals) :
    (options self locals).body.isSome = locals.body.isSome := by
  unfold options
  cases locals.body with
  | none => rfl
  | some body => exact stringify_obj_isSome body

/-- Method and body of every request the `switch` leaves. -/
theorem switch_method_body (self : Server) (toolName : String) (args : Object) :
    ∀ locals, switch self toolName args = .ok locals →
      locals.method ∈ ["GET", "POST", "PATCH", "DELETE"] ∧
      (locals.body.isSome = true ↔ (locals.method = "POST" ∨ locals.method = "PATCH")) := by
  by_cases hknown : toolName ∈ caseLabels
  · simp only [caseLabels, List.mem_cons, List.mem_singleton, List.mem_nil_iff, or_false]
      at hknown
    rcases hknown with h | h | h | h | h | h | h | h | h | h | h | h | h | h | h | h | h | h |
      h | h | h | h | h | h | h | h | h | h | h | h | h | h <;> subst h <;>
    repeat (first
      | exact all_pure (fun l : Locals => l.method ∈ ["GET", "POST", "PATCH", "DELETE"] ∧
          (l.body.isSome = true ↔ (l.method = "POST" ∨ l.method = "PATCH"))) _
          ⟨by simp, by simp <;> decide⟩
      | refine all_bind (fun l : Locals => l.method ∈ ["GET", "POST", "PATCH", "DELETE"] ∧
          (l.body.isSome = true ↔ (l.method = "POST" ∨ l.method = "PATCH"))) _ _
          (fun _ => ?_))
  · intro locals h
    rw [switch_default self toolName args hknown] at h
    cases h

end VavickyMCPServer

namespace JS.Object

theorem insertIndexed_eq_append (o : Object) (k : String) (n : Nat) (v : Value)
    (hk : arrayIndex? k = some n) (h : ∀ a ∈ keys o, precedes a k = true) :
    insertIndexed o k n v = o ++ [(k, v)] := by
  induction o with
  | nil => rfl
  | cons p o ih =>
    have hp : precedes p.1 k = true := h p.1 (by simp [keys])
    have ho : ∀ a ∈ keys o, precedes a k = true := by
      intro a ha
      exact h a (by simp only [keys, List.map_cons, List.mem_cons]; exact Or.inr ha)
    unfold insertIndexed
    unfold precedes at hp
    rw [hk] at hp
    cases hm : arrayIndex? p.1 with
    | none => rw [hm] at hp; cases hp
    | some m =>
      rw [hm] at hp
      have hlt : m < n := by simpa using hp
      simp only [hlt, if_true, ih ho, List.cons_append]

/-- An assignment to a fresh name that every present name precedes adds the property
at the end. -/
theorem setProp_eq_append (o : Object) (k : String) (v : Value) (hproto : k ≠ "__proto__")
    (hfresh : k ∉ keys o) (h : ∀ a ∈ keys o, precedes a k = true) :
    setProp o k v = o ++ [(k, v)] := by
  unfold setProp
  have hown : hasOwn o k = false := by
    simp [hasOwn, getOwn_eq_none_of_not_mem o k hfresh]
  rw [if_neg hproto]
  simp only [hown, Bool.false_eq_true, if_false]
  cases hk : arrayIndex? k with
  | none => rfl
  | some n => exact insertIndexed_eq_append o k n v hk h

theorem wellFormed_of_sublist {o o2 : Object} (hs : List.Sublist o2 o) (h : WellFormed o) :
    WellFormed o2 := by
  have hk : List.Sublist (keys o2) (keys o) := List.Sublist.map Prod.fst hs
  exact ⟨h.1.sublist hk, h.2.sublist hk⟩

end JS.Object

namespace VavickyMCPServer

open JS JS.Object

theorem filter_foldl_eq (l acc : Object) (hwf : WellFormed (acc ++ l)) :
    l.foldl (fun cleaned entry =>
        if entry.2.nonEmpty then Object.setProp cleaned entry.1 entry.2 else cleaned) acc =
      acc ++ l.filter (fun p => decide (p.1 ≠ "__proto__") && p.2.nonEmpty) := by
  induction l generalizing acc with
  | nil => simp
  | cons p l ih =>
    rw [List.foldl_cons]
    have hdrop : WellFormed (acc ++ l) :=
      wellFormed_of_sublist (List.Sublist.append_left (List.sublist_cons_self p l) acc) hwf
    by_cases hne : p.2.nonEmpty = true
    · by_cases hproto : p.1 = "__proto__"
      · have hset : Object.setProp acc p.1 p.2 = acc := by
          unfold Object.setProp
          rw [if_pos hproto]
        rw [if_pos hne, hset, ih acc hdrop]
        simp [List.filter_cons, hproto]
      · have hkeys : keys (acc ++ p :: l) = keys acc ++ p.1 :: keys l := by
          simp [keys]
        have hfresh : p.1 ∉ keys acc := by
          have hnd := hwf.1
          rw [hkeys] at hnd
          intro hmem
          have := (List.nodup_append.1 hnd).2.2
          exact this hmem (List.mem_cons_self _ _)
        have hprec : ∀ a ∈ keys acc, precedes a p.1 = true := by
          intro a ha
          have hpw := hwf.2
          rw [hkeys] at hpw
          exact (List.pairwise_append.1 hpw).2.2 a ha p.1 (List.mem_cons_self _ _)
        have hset := setProp_eq_append acc p.1 p.2 hproto hfresh hprec
        have hwf2 : WellFormed ((acc ++ [p]) ++ l) := by
          rw [List.append_assoc]
          exact hwf
        rw [if_pos hne, hset, ih (acc ++ [p]) hwf2]
        simp [List.filter_cons, hproto, hne]
    · rw [if_neg hne, ih acc hdrop]
      simp [List.filter_cons, hne]

/-- The filtered copy of a well-formed object is the list of its entries that are kept,
in their order. -/
theorem filterEmptyValues_eq_filter (obj : Object) (hwf : WellFormed obj) :
    filterEmptyValues obj =
      obj.filter (fun p => decide (p.1 ≠ "__proto__") && p.2.nonEmpty) := by
  unfold filterEmptyValues
  rw [filter_foldl_eq obj [] (by simpa using hwf)]
  rfl

theorem update_twilio_number_body_eq (a b c : Value) :
    setIfTruthy (setIfTruthy (setIfTruthy [] "name" a) "webhook" b) "smsWebhook" c =
      (if a.truthy then [("name", a)] else []) ++
        (if b.truthy then [("webhook", b)] else []) ++
        (if c.truthy then [("smsWebhook", c)] else []) := by
  unfold setIfTruthy
  cases a.truthy <;> cases b.truthy <;> cases c.truthy <;> rfl

/-- Outside the two tools that forward every key, the translation depends on `args`
only through the arguments listed by `argumentsRead`. -/
theorem switch_reads (self : Server) (toolName : String) (args other : Object)
    (hcreate : toolName ≠ "create_assistant") (hupdate : toolName ≠ "update_assistant")
    (h : ∀ k ∈ argumentsRead toolName, Object.get args k = Object.get other k) :
    switch self toolName args = switch self toolName other := by
  by_cases hknown : toolName ∈ caseLabels
  · simp only [caseLabels, List.mem_cons, List.mem_singleton, List.mem_nil_iff, or_false]
      at hknown
    rcases hknown with h0 | h0 | h0 | h0 | h0 | h0 | h0 | h0 | h0 | h0 | h0 | h0 | h0 | h0 |
      h0 | h0 | h0 | h0 | h0 | h0 | h0 | h0 | h0 | h0 | h0 | h0 | h0 | h0 | h0 | h0 | h0 | h0 <;>
      subst h0
    · conv_lhs => whnf
      conv_rhs => whnf
    · have e1 := h "whitelabel_name" (by decide)
      have e2 := h "whitelabel_description" (by decide)
      have e3 := h "whitelabel_domain" (by decide)
      have e4 := h "whitelabel_color" (by decide)
      conv_lhs => whnf
      conv_rhs => whnf
      simp only [e1, e2, e3, e4]
    · have e1 := h "smtp_email" (by decide)
      have e2 := h "smtp_password" (by decide)
      have e3 := h "smtp_host" (by decide)
      have e4 := h "smtp_port" (by decide)
      conv_lhs => whnf
      conv_rhs => whnf
      simp only [e1, e2, e3, e4]
    · have e1 := h "openai_token" (by decide)
      conv_lhs => whnf
      conv_rhs => whnf
      simp only [e1]
    · have e1 := h "elevenlabs_token" (by decide)
      conv_lhs => whnf
      conv_rhs => whnf
      simp only [e1]
    · have e1 := h "deepseek_token" (by decide)
      conv_lhs => whnf
      conv_rhs => whnf
      simp only [e1]
    · have e1 := h "gemini_token" (by decide)
      conv_lhs => whnf
      conv_rhs => whnf
      simp only [e1]
    · have e1 := h "openrouter_token" (by decide)
      conv_lhs => whnf
      conv_rhs => whnf
      simp only [e1]
    · conv_lhs => whnf
      conv_rhs => whnf
    · have e1 := h "assistant_id" (by decide)
      conv_lhs => whnf
      conv_rhs => whnf
      simp only [e1]
    · have e1 := h "assistant_id" (by decide)
      conv_lhs => whnf
      conv_rhs => whnf
      simp only [e1]
    · exact absurd rfl hcreate
    · exact absurd rfl hupdate
    · have e1 := h "assistant_id" (by decide)
      conv_lhs => whnf
      conv_rhs => whnf
      simp only [e1]
    · have e1 := h "assistant_id" (by decide)
      conv_lhs => whnf
      conv_rhs => whnf
      simp only [e1]
    · have e1 := h "assistant_id" (by decide)
      have e2 := h "file_id" (by decide)
      conv_lhs => whnf
      conv_rhs => whnf
      simp only [e1, e2]
    · have e1 := h "assistant_id" (by decide)
      conv_lhs => whnf
      conv_rhs => whnf
      simp only [e1]
    · conv_lhs => whnf
      conv_rhs => whnf
    · conv_lhs => whnf
      conv_rhs => whnf
    · have e1 := h "assistant_id" (by decide)
      have e2 := h "audio" (by decide)
      have e3 := h "message" (by decide)
      have e4 := h "thread_id" (by decide)
      conv_lhs => whnf
      conv_rhs => whnf
      simp only [e1, e2, e3, e4]
    · have e1 := h "twilio_sid" (by decide)
      have e2 := h "twilio_token" (by decide)
      conv_lhs => whnf
      conv_rhs => whnf
      simp only [e1, e2]
    · conv_lhs => whnf
      conv_rhs => whnf
    · conv_lhs => whnf
      conv_rhs => whnf
    · have e1 := h "country_code" (by decide)
      have e2 := h "number_type" (by decide)
      have e3 := h "search_pattern" (by decide)
      have e4 := h "locality" (by decide)
      conv_lhs => whnf
      conv_rhs => whnf
      simp only [e1, e2, e3, e4]
    · have e1 := h "phone_number" (by decide)
      conv_lhs => whnf
      conv_rhs => whnf
      simp only [e1]
    · have e1 := h "number_sid" (by decide)
      have e2 := h "friendly_name" (by decide)
      have e3 := h "voice_webhook" (by decide)
      have e4 := h "sms_webhook" (by decide)
      conv_lhs => whnf
      conv_rhs => whnf
      simp only [e1, e2, e3, e4]
    · have e1 := h "start_date" (by decide)
      have e2 := h "end_date" (by decide)
      have e3 := h "limit" (by decide)
      conv_lhs => whnf
      conv_rhs => whnf
      simp only [e1, e2, e3]
    · have e1 := h "assistant_id" (by decide)
      have e2 := h "phone_number" (by decide)
      have e3 := h "contact_id" (by decide)
      conv_lhs => whnf
      conv_rhs => whnf
      simp only [e1, e2, e3]
    · have e1 := h "assistant_id" (by decide)
      have e2 := h "contact_bulk_id" (by decide)
      conv_lhs => whnf
      conv_rhs => whnf
      simp only [e1, e2]
    · conv_lhs => whnf
      conv_rhs => whnf
    · have e1 := h "call_id" (by decide)
      conv_lhs => whnf
      conv_rhs => whnf
      simp only [e1]
    · have e1 := h "assistant_id" (by decide)
      have e2 := h "phone_number" (by decide)
      have e3 := h "message" (by decide)
      have e4 := h "contact_id" (by decide)
      conv_lhs => whnf
      conv_rhs => whnf
      simp only [e1, e2, e3, e4]
  · rw [switch_default self toolName args hknown, switch_default self toolName other hknown]

end VavickyMCPServer

/-! ## Properties of the specification, checked on the translation -/

namespace VavickyMCPServer

open JS

/-- C1: the tool names advertised by the catalogue are exactly the names handled by a
`case` of the `switch` in `executeTool`, neither list repeats a name, and a name is a
`case` label exactly when the `switch` does not end in its `default` branch. -/
theorem catalogue_matches_dispatch :
    toolNames.Nodup ∧ caseLabels.Nodup ∧
    (∀ name : String, name ∈ toolNames ↔ name ∈ caseLabels) ∧
    (∀ (self : Server) (name : String) (args : Object),
      name ∈ caseLabels ↔
        switch self name args ≠ .error (.error ("Unknown tool: " ++ name))) := by
  refine ⟨by decide, by decide, ?_, ?_⟩
  · intro name
    have h : toolNames = caseLabels := by decide
    rw [h]
  · intro self name args
    constructor
    · intro h
      exact switch_case self name args h _
    · intro h
      by_contra hn
      exact h (switch_default self name args hn)

/-- C2 (the code at the failing input): with no API key configured, `executeTool`
for `get_user` does not fail; it sends a request whose credential is the text
`Bearer undefined` and returns the response payload. The `/call-tool` route, which
calls `executeTool` without any check of the key, answers with status 200. -/
theorem executeTool_without_api_key :
    (executeTool { apiKey := none }
        (fun _ => .ok { status := 200, statusText := "OK", text := .ok "", json := .ok (.str "u1") })
        "get_user" []).calls =
      [{ url := "https://backend.vavicky.com/vavicky/api/user"
         method := "GET"
         headers := [("Authorization", "Bearer undefined"), ("Content-Type", "application/json")]
         body := none }] ∧
    (executeTool { apiKey := none }
        (fun _ => .ok { status := 200, statusText := "OK", text := .ok "", json := .ok (.str "u1") })
        "get_user" []).result = .ok (.str "u1") ∧
    (Wrapper.callTool { apiKey := none }
        (fun _ => .ok { status := 200, statusText := "OK", text := .ok "", json := .ok (.str "u1") })
        { toolName := some "get_user", args := some [] }).reply.status = 200 ∧
    (Wrapper.callTool { apiKey := none }
        (fun _ => .ok { status := 200, statusText := "OK", text := .ok "", json := .ok (.str "u1") })
        { toolName := some "get_user", args := some [] }).calls.length = 1 := by
  refine ⟨rfl, rfl, rfl, rfl⟩

/-- C3 (counterexample): without an API key, the error the call-tool handler throws
for `get_user` has the message
`MCP error -32600: VAVICKY_API_KEY environment variable is required`, which is not the
text `VAVICKY_API_KEY environment variable is required`. -/
theorem callToolHandler_missing_key_message :
    (callToolHandler { apiKey := none }
        (fun _ => .ok { status := 200, statusText := "OK", text := .ok "", json := .ok .null })
        { name := "get_user", arguments := some [] }).reply =
      .error
        { code := .InvalidRequest
          message := "MCP error -32600: VAVICKY_API_KEY environment variable is required" } ∧
    "MCP error -32600: VAVICKY_API_KEY environment variable is required" ≠
      "VAVICKY_API_KEY environment variable is required" := by
  exact ⟨rfl, by decide⟩

/-- C3 (amended): when the API key is `undefined` or the empty string, the call-tool
handler rejects every request, whatever the tool name and arguments, with an `McpError`
whose code is `InvalidRequest` and whose message is
`MCP error -32600: VAVICKY_API_KEY environment variable is required`; `executeTool` is
not invoked and nothing is sent. -/
theorem callToolHandler_requires_api_key (self : Server) (backend : Backend)
    (params : CallToolParams) (h : self.apiKey = none ∨ self.apiKey = some "") :
    callToolHandler self backend params =
      { reply := .error
          { code := .InvalidRequest
            message := "MCP error -32600: VAVICKY_API_KEY environment variable is required" }
        executed := []
        calls := [] } := by
  have hm : self.apiKeyMissing = true := by
    rcases h with h | h <;> simp [Server.apiKeyMissing, h]
  simp only [callToolHandler, hm, if_true]
  rfl

/-- C3 (witness): with the empty string as key, a call of `get_user` with arguments is
rejected before `executeTool` runs. -/
theorem callToolHandler_requires_api_key_witness :
    callToolHandler { apiKey := some "" }
        (fun _ => .ok { status := 200, statusText := "OK", text := .ok "", json := .ok .null })
        { name := "get_user", arguments := some [("x", .num "1")] } =
      { reply := .error
          { code := .InvalidRequest
            message := "MCP error -32600: VAVICKY_API_KEY environment variable is required" }
        executed := []
        calls := [] } :=
  callToolHandler_requires_api_key _ _ _ (Or.inr rfl)

/-- C4: for a tool name that is not, character for character, one of the `case`
labels, `executeTool` throws an `Error` whose message is `Unknown tool: ` followed by
that name, and issues no request. -/
theorem executeTool_unknown_tool (self : Server) (backend : Backend) (toolName : String)
    (args : Object) (h : toolName ∉ caseLabels) :
    (executeTool self backend toolName args).result =
        .error (.error ("Unknown tool: " ++ toolName)) ∧
      (executeTool self backend toolName args).calls = [] := by
  simp [executeTool, switch_default self toolName args h]

/-- C4 (witness): `Get_User` differs from the label `get_user` only in case and is
rejected as unknown. -/
theorem executeTool_unknown_tool_witness :
    "Get_User" ∉ caseLabels ∧
    (executeTool { apiKey := some "key" }
        (fun _ => .ok { status := 200, statusText := "OK", text := .ok "", json := .ok .null })
        "Get_User" [("assistant_id", .str "a1")]).result =
        .error (.error "Unknown tool: Get_User") ∧
      (executeTool { apiKey := some "key" }
        (fun _ => .ok { status := 200, statusText := "OK", text := .ok "", json := .ok .null })
        "Get_User" [("assistant_id", .str "a1")]).calls = [] :=
  ⟨by decide, executeTool_unknown_tool _ _ "Get_User" _ (by decide)⟩

/-- C5 (the code at the failing input): an argument mapping with an own property
`__proto__`, as `JSON.parse` produces it, holds a non-empty value under that key, yet
the body built for `create_assistant` has no such key: the loop of `filterEmptyValues`
copies `name` and loses `__proto__`. -/
theorem create_assistant_drops_proto :
    Object.getOwn [("__proto__", .str "x"), ("name", .str "a")] "__proto__" = some (.str "x") ∧
    (Value.str "x").nonEmpty = true ∧
    (switch { apiKey := some "key" } "create_assistant"
        [("__proto__", .str "x"), ("name", .str "a")]).map Locals.body =
      .ok (some [("name", .str "a")]) ∧
    Object.hasOwn (filterEmptyValues [("__proto__", .str "x"), ("name", .str "a")])
      "__proto__" = false := by
  refine ⟨rfl, rfl, rfl, rfl⟩

/-- The body built for `create_assistant` is `filterEmptyValues(args)`. Apart from the
key `__proto__`, which the assignment `cleaned[key] = value` never stores, the body
holds a key exactly when `args` holds it with a value that is none of `undefined`,
`null`, `''`, and then with the same value; every key of the body is a key of `args`. -/
theorem create_assistant_body (self : Server) (args : Object)
    (hnd : (Object.keys args).Nodup) :
    switch self "create_assistant" args =
      .ok { url := self.baseUrl ++ "/assistants"
            method := "POST"
            body := some (filterEmptyValues args) } ∧
    (∀ (k : String) (v : Value), k ≠ "__proto__" →
      (Object.getOwn (filterEmptyValues args) k = some v ↔
        Object.getOwn args k = some v ∧ v ≠ .undefined ∧ v ≠ .null ∧ v ≠ .str "")) ∧
    (∀ k : String, Object.hasOwn (filterEmptyValues args) k = true →
      Object.hasOwn args k = true) := by
  refine ⟨rfl, ?_, ?_⟩
  · intro k v hk
    rw [getOwn_filterEmptyValues args k hnd, ← Value.nonEmpty_iff]
    cases h : Object.getOwn args k with
    | none => simp
    | some w =>
      by_cases hw : w.nonEmpty = true
      · simp only [hk, hw, ne_eq, not_false_eq_true, and_self, if_true, Option.some.injEq]
        constructor
        · intro e; subst e; exact ⟨rfl, hw⟩
        · intro e; exact e.1
      · have hf : ¬ (k ≠ "__proto__" ∧ w.nonEmpty = true) := fun h => hw h.2
        simp only [if_neg hf]
        constructor
        · intro e; cases e
        · intro e
          rw [Option.some.injEq] at e
          exact absurd (e.1 ▸ e.2) hw
  · intro k hk
    simp only [Object.hasOwn, Option.isSome_iff_exists] at hk
    obtain ⟨v, hv⟩ := hk
    exact Object.hasOwn_of_mem args k v (mem_of_getOwn_filterEmptyValues args k v hv).2.2

/-- Of five distinct keys, the three whose value is neither `null` nor empty make up
the body of `create_assistant`; `false` and `0` are kept. -/
theorem create_assistant_body_witness :
    (Object.keys [("name", .str "a"), ("prompt", .str ""), ("active", .bool false),
      ("limit_call_time", .num "0"), ("calendar", .null)]).Nodup ∧
    switch { apiKey := some "key" } "create_assistant"
        [("name", .str "a"), ("prompt", .str ""), ("active", .bool false),
          ("limit_call_time", .num "0"), ("calendar", .null)] =
      .ok { url := "https://backend.vavicky.com/vavicky/api/assistants"
            method := "POST"
            body := some [("name", .str "a"), ("active", .bool false),
              ("limit_call_time", .num "0")] } :=
  ⟨by decide, (create_assistant_body { apiKey := some "key" } _ (by decide)).1⟩

/-- C6: the request built for `update_assistant` is a `PATCH` to
`baseUrl + '/assistants/' + args.assistant_id` whose body is `filterEmptyValues` of
`args` without its `assistant_id` property; that body never has the key
`assistant_id`. -/
theorem update_assistant_request (self : Server) (args : Object) :
    switch self "update_assistant" args =
      (Object.get args "assistant_id").toStr.map (fun id =>
        { url := self.baseUrl ++ "/assistants/" ++ id
          method := "PATCH"
          body := some (filterEmptyValues (Object.rest args "assistant_id")) }) ∧
    (∀ k : String, Object.getOwn (Object.rest args "assistant_id") k =
      if k = "assistant_id" then none else Object.getOwn args k) ∧
    Object.hasOwn (filterEmptyValues (Object.rest args "assistant_id")) "assistant_id" =
      false := by
  refine ⟨rfl, fun k => Object.getOwn_rest args "assistant_id" k, ?_⟩
  cases h : Object.getOwn (filterEmptyValues (Object.rest args "assistant_id")) "assistant_id" with
  | none => simp [Object.hasOwn, h]
  | some v =>
    have hmem := (mem_of_getOwn_filterEmptyValues _ _ v h).2.2
    have hown := Object.hasOwn_of_mem _ _ _ hmem
    simp [Object.hasOwn, Object.getOwn_rest] at hown

/-- C7 (counterexample): `delete_assistant` without its `assistant_id` is not
rejected; the request is sent, to a URL whose last segment is the text `undefined`. -/
theorem delete_assistant_without_id_is_sent :
    (executeTool { apiKey := some "key" }
        (fun _ => .ok { status := 200, statusText := "OK", text := .ok "", json := .ok (.obj []) })
        "delete_assistant" []).calls =
      [{ url := "https://backend.vavicky.com/vavicky/api/assistants/undefined"
         method := "DELETE"
         headers := [("Authorization", "Bearer key"), ("Content-Type", "application/json")]
         body := none }] ∧
    (executeTool { apiKey := some "key" }
        (fun _ => .ok { status := 200, statusText := "OK", text := .ok "", json := .ok (.obj []) })
        "delete_assistant" []).result = .ok (.obj []) := by
  exact ⟨rfl, rfl⟩

/-- C7 (amended): no path argument is validated. For every path-parameterized tool and
every `args` in which each path argument is absent or a string (possibly empty) and
`audio` is absent or a boolean, the translation does not fail and exactly one request
is issued; its URL carries the text `undefined` in the place of an absent path
argument and the empty text in the place of an empty one. -/
theorem path_arguments_are_not_validated (self : Server) (backend : Backend) (args : Object)
    (hpath : ∀ p ∈ ["assistant_id", "file_id", "number_sid", "contact_bulk_id", "call_id"],
      Object.getOwn args p = none ∨ ∃ s, Object.getOwn args p = some (.str s))
    (haudio : Object.getOwn args "audio" = none ∨
      ∃ b, Object.getOwn args "audio" = some (.bool b)) :
    (∀ t ∈ ["get_assistant", "get_one_assistant", "update_assistant", "delete_assistant",
        "get_assistant_files", "delete_assistant_file", "get_assistant_usage",
        "update_twilio_number", "make_call", "make_bulk_call", "cancel_call", "send_sms",
        "chat_with_assistant"],
      ∃ locals, switch self t args = .ok locals ∧
        (executeTool self backend t args).calls = [options self locals]) ∧
    (∀ p, Object.getOwn args p = none → Object.templateText args p = "undefined") ∧
    (∀ p, Object.getOwn args p = some (.str "") → Object.templateText args p = "") ∧
    (switch self "get_assistant" args).map Locals.url =
      .ok (self.baseUrl ++ "/assistants/" ++ Object.templateText args "assistant_id") ∧
    (switch self "get_one_assistant" args).map Locals.url =
      .ok (self.baseUrl ++ "/assistants/one/" ++ Object.templateText args "assistant_id") ∧
    (switch self "update_assistant" args).map Locals.url =
      .ok (self.baseUrl ++ "/assistants/" ++ Object.templateText args "assistant_id") ∧
    (switch self "delete_assistant" args).map Locals.url =
      .ok (self.baseUrl ++ "/assistants/" ++ Object.templateText args "assistant_id") ∧
    (switch self "get_assistant_files" args).map Locals.url =
      .ok (self.baseUrl ++ "/assistants/" ++ Object.templateText args "assistant_id" ++
        "/files") ∧
    (switch self "delete_assistant_file" args).map Locals.url =
      .ok (self.baseUrl ++ "/assistants/" ++ Object.templateText args "assistant_id" ++
        "/files/" ++ Object.templateText args "file_id") ∧
    (switch self "get_assistant_usage" args).map Locals.url =
      .ok (self.baseUrl ++ "/assistants/" ++ Object.templateText args "assistant_id" ++
        "/usage") ∧
    (switch self "update_twilio_number" args).map Locals.url =
      .ok (self.baseUrl ++ "/twilio/numbers/" ++ Object.templateText args "number_sid") ∧
    (switch self "make_call" args).map Locals.url =
      .ok (self.baseUrl ++ "/twilio/" ++ Object.templateText args "assistant_id" ++ "/call") ∧
    (switch self "make_bulk_call" args).map Locals.url =
      .ok (self.baseUrl ++ "/twilio/" ++ Object.templateText args "assistant_id" ++
        "/callbulk/" ++ Object.templateText args "contact_bulk_id") ∧
    (switch self "cancel_call" args).map Locals.url =
      .ok (self.baseUrl ++ "/twilio/calls/" ++ Object.templateText args "call_id") ∧
    (switch self "send_sms" args).map Locals.url =
      .ok (self.baseUrl ++ "/twilio/" ++ Object.templateText args "assistant_id" ++ "/sms") ∧
    (switch self "chat_with_assistant" args).map Locals.url =
      .ok (self.baseUrl ++ "/assistants/" ++ Object.templateText args "assistant_id" ++
        "/chat?audio=" ++ (if (Object.get args "audio").truthy then "true" else "false")) := by
  have hA := toStr_get_of_absent_or_string args "assistant_id" (hpath _ (by decide))
  have hF := toStr_get_of_absent_or_string args "file_id" (hpath _ (by decide))
  have hN := toStr_get_of_absent_or_string args "number_sid" (hpath _ (by decide))
  have hB := toStr_get_of_absent_or_string args "contact_bulk_id" (hpath _ (by decide))
  have hC := toStr_get_of_absent_or_string args "call_id" (hpath _ (by decide))
  have hAu : (orFalse (Object.get args "audio")).toStr =
      .ok (if (Object.get args "audio").truthy then "true" else "false") := by
    rcases haudio with h | ⟨b, h⟩
    · simp [Object.get, h, orFalse, Value.truthy, Value.toStr, pure, Except.pure]
    · cases b <;> simp [Object.get, h, orFalse, Value.truthy, Value.toStr, pure, Except.pure]
  have u1 : (switch self "get_assistant" args).map Locals.url =
      .ok (self.baseUrl ++ "/assistants/" ++ Object.templateText args "assistant_id") := by
    unfold switch; simp only [hA]; rfl
  have u2 : (switch self "get_one_assistant" args).map Locals.url =
      .ok (self.baseUrl ++ "/assistants/one/" ++ Object.templateText args "assistant_id") := by
    unfold switch; simp only [hA]; rfl
  have u3 : (switch self "update_assistant" args).map Locals.url =
      .ok (self.baseUrl ++ "/assistants/" ++ Object.templateText args "assistant_id") := by
    unfold switch; simp only [hA]; rfl
  have u4 : (switch self "delete_assistant" args).map Locals.url =
      .ok (self.baseUrl ++ "/assistants/" ++ Object.templateText args "assistant_id") := by
    unfold switch; simp only [hA]; rfl
  have u5 : (switch self "get_assistant_files" args).map Locals.url =
      .ok (self.baseUrl ++ "/assistants/" ++ Object.templateText args "assistant_id" ++
        "/files") := by
    unfold switch; simp only [hA]; rfl
  have u6 : (switch self "delete_assistant_file" args).map Locals.url =
      .ok (self.baseUrl ++ "/assistants/" ++ Object.templateText args "assistant_id" ++
        "/files/" ++ Object.templateText args "file_id") := by
    unfold switch; simp only [hA, hF]; rfl
  have u7 : (switch self "get_assistant_usage" args).map Locals.url =
      .ok (self.baseUrl ++ "/assistants/" ++ Object.templateText args "assistant_id" ++
        "/usage") := by
    unfold switch; simp only [hA]; rfl
  have u8 : (switch self "update_twilio_number" args).map Locals.url =
      .ok (self.baseUrl ++ "/twilio/numbers/" ++ Object.templateText args "number_sid") := by
    unfold switch; simp only [hN]; rfl
  have u9 : (switch self "make_call" args).map Locals.url =
      .ok (self.baseUrl ++ "/twilio/" ++ Object.templateText args "assistant_id" ++
        "/call") := by
    unfold switch; simp only [hA]; rfl
  have u10 : (switch self "make_bulk_call" args).map Locals.url =
      .ok (self.baseUrl ++ "/twilio/" ++ Object.templateText args "assistant_id" ++
        "/callbulk/" ++ Object.templateText args "contact_bulk_id") := by
    unfold switch; simp only [hA, hB]; rfl
  have u11 : (switch self "cancel_call" args).map Locals.url =
      .ok (self.baseUrl ++ "/twilio/calls/" ++ Object.templateText args "call_id") := by
    unfold switch; simp only [hC]; rfl
  have u12 : (switch self "send_sms" args).map Locals.url =
      .ok (self.baseUrl ++ "/twilio/" ++ Object.templateText args "assistant_id" ++
        "/sms") := by
    unfold switch; simp only [hA]; rfl
  have u13 : (switch self "chat_with_assistant" args).map Locals.url =
      .ok (self.baseUrl ++ "/assistants/" ++ Object.templateText args "assistant_id" ++
        "/chat?audio=" ++ (if (Object.get args "audio").truthy then "true" else "false")) := by
    unfold switch; simp only [hA, hAu]; rfl
  refine ⟨?_, ?_, ?_, u1, u2, u3, u4, u5, u6, u7, u8, u9, u10, u11, u12, u13⟩
  · intro t ht
    have key : ∀ u, (switch self t args).map Locals.url = .ok u →
        ∃ locals, switch self t args = .ok locals ∧
          (executeTool self backend t args).calls = [options self locals] := by
      intro u hu
      obtain ⟨locals, hl, _⟩ := exists_locals_of_url _ u hu
      exact ⟨locals, hl, executeTool_calls self backend t args locals hl⟩
    simp only [List.mem_cons, List.mem_singleton, List.mem_nil_iff, or_false] at ht
    rcases ht with h | h | h | h | h | h | h | h | h | h | h | h | h <;> subst h
    · exact key _ u1
    · exact key _ u2
    · exact key _ u3
    · exact key _ u4
    · exact key _ u5
    · exact key _ u6
    · exact key _ u7
    · exact key _ u8
    · exact key _ u9
    · exact key _ u10
    · exact key _ u11
    · exact key _ u12
    · exact key _ u13
  · intro p hp
    simp [Object.templateText, Object.get, hp, Value.toStr, pure, Except.pure]
  · intro p hp
    simp [Object.templateText, Object.get, hp, Value.toStr, pure, Except.pure]

/-- C7 (witness): `delete_assistant_file` with an empty `assistant_id` and no
`file_id` is translated to a URL with an empty segment and the segment `undefined`. -/
theorem path_arguments_are_not_validated_witness :
    (∀ p ∈ ["assistant_id", "file_id", "number_sid", "contact_bulk_id", "call_id"],
      Object.getOwn [("assistant_id", .str "")] p = none ∨
        ∃ s, Object.getOwn [("assistant_id", .str "")] p = some (.str s)) ∧
    (Object.getOwn [("assistant_id", .str "")] "audio" = none ∨
      ∃ b, Object.getOwn [("assistant_id", .str "")] "audio" = some (.bool b)) ∧
    (switch { apiKey := some "key" } "delete_assistant_file"
        [("assistant_id", .str "")]).map Locals.url =
      .ok "https://backend.vavicky.com/vavicky/api/assistants//files/undefined" :=
  have hpath : ∀ p ∈ ["assistant_id", "file_id", "number_sid", "contact_bulk_id", "call_id"],
      Object.getOwn [("assistant_id", .str "")] p = none ∨
        ∃ s, Object.getOwn [("assistant_id", .str "")] p = some (.str s) := by
    intro p hp
    simp only [List.mem_cons, List.mem_singleton, List.mem_nil_iff, or_false] at hp
    rcases hp with h | h | h | h | h <;> subst h
    · exact Or.inr ⟨"", rfl⟩
    · exact Or.inl rfl
    · exact Or.inl rfl
    · exact Or.inl rfl
    · exact Or.inl rfl
  ⟨hpath, Or.inl rfl,
    (path_arguments_are_not_validated { apiKey := some "key" }
      (fun _ => .ok { status := 200, statusText := "OK", text := .ok "", json := .ok .null })
      [("assistant_id", .str "")] hpath (Or.inl rfl)).2.2.2.2.2.2.2.2.1⟩

/-- C8 (counterexample): `make_call` with a `contact_id` that is supplied but empty
builds a body without `contact_id` and without `customData`. -/
theorem make_call_empty_contact_id :
    Object.hasOwn [("assistant_id", .str "a1"), ("phone_number", .str "+15550100"),
      ("contact_id", .str "")] "contact_id" = true ∧
    switch { apiKey := some "key" } "make_call"
        [("assistant_id", .str "a1"), ("phone_number", .str "+15550100"),
          ("contact_id", .str "")] =
      .ok { url := "https://backend.vavicky.com/vavicky/api/twilio/a1/call"
            method := "POST"
            body := some [("phonenumber", .str "+15550100")] } := by
  exact ⟨rfl, rfl⟩

/-- C8 (amended): for `make_call`, when `contact_id` is absent or falsy (such as the
empty string) the body is exactly `{phonenumber: args.phone_number}`; when
`contact_id` is truthy the body is exactly `phonenumber`, `contact_id` equal to
`args.contact_id`, and `customData` equal to `{phonenumber: args.phone_number}`. -/
theorem make_call_body (self : Server) (args : Object) :
    switch self "make_call" args =
      (Object.get args "assistant_id").toStr.map (fun id =>
        { url := self.baseUrl ++ "/twilio/" ++ id ++ "/call"
          method := "POST"
          body := some
            (if (Object.get args "contact_id").truthy then
              [("phonenumber", Object.get args "phone_number"),
               ("contact_id", Object.get args "contact_id"),
               ("customData", .obj [("phonenumber", Object.get args "phone_number")])]
            else [("phonenumber", Object.get args "phone_number")]) }) ∧
    (Object.getOwn args "contact_id" = none → (Object.get args "contact_id").truthy = false) ∧
    (Object.get args "contact_id" = .str "" → (Object.get args "contact_id").truthy = false) := by
  refine ⟨?_, ?_, ?_⟩
  · cases h : (Object.get args "contact_id").truthy
    · unfold switch; simp only [h]; rfl
    · unfold switch; simp only [h]; rfl
  · intro h
    simp [Object.get, h, Value.truthy]
  · intro h
    simp [h, Value.truthy]

/-- C9: for `send_sms` the body always holds `phonenumber` and `message` with the
values of `args.phone_number` and `args.message`; `contact_id` and `customData` are
both present or both absent; they are present only when `args` has a `contact_id`,
and then `contact_id` is that argument and `customData` is exactly the pair
`phonenumber`, `message` of the body; the body has no other key. -/
theorem send_sms_body (self : Server) (args : Object) :
    ∃ body : Object,
      switch self "send_sms" args =
        (Object.get args "assistant_id").toStr.map (fun id =>
          { url := self.baseUrl ++ "/twilio/" ++ id ++ "/sms"
            method := "POST"
            body := some body }) ∧
      Object.getOwn body "phonenumber" = some (Object.get args "phone_number") ∧
      Object.getOwn body "message" = some (Object.get args "message") ∧
      Object.hasOwn body "contact_id" = Object.hasOwn body "customData" ∧
      (Object.hasOwn body "contact_id" = true →
        Object.hasOwn args "contact_id" = true ∧
        Object.getOwn body "contact_id" = some (Object.get args "contact_id") ∧
        Object.getOwn body "customData" =
          some (.obj [("phonenumber", Object.get body "phonenumber"),
            ("message", Object.get body "message")])) ∧
      (∀ k : String, Object.hasOwn body k = true →
        k ∈ ["phonenumber", "message", "contact_id", "customData"]) := by
  cases h : (Object.get args "contact_id").truthy
  · refine ⟨[("phonenumber", Object.get args "phone_number"),
      ("message", Object.get args "message")], ?_, rfl, rfl, rfl, ?_, ?_⟩
    · unfold switch; simp only [h]; rfl
    · intro hc; cases hc
    · intro k hk
      simp only [Object.hasOwn, Object.getOwn] at hk
      by_cases e1 : "phonenumber" = k
      · simp [← e1]
      · by_cases e2 : "message" = k
        · simp [← e2]
        · simp [e1, e2] at hk
  · refine ⟨[("phonenumber", Object.get args "phone_number"),
      ("message", Object.get args "message"), ("contact_id", Object.get args "contact_id"),
      ("customData", .obj [("phonenumber", Object.get args "phone_number"),
        ("message", Object.get args "message")])], ?_, rfl, rfl, rfl, ?_, ?_⟩
    · unfold switch; simp only [h]; rfl
    · intro _
      exact ⟨truthy_get_hasOwn args "contact_id" h, rfl, rfl⟩
    · intro k hk
      simp only [Object.hasOwn, Object.getOwn] at hk
      by_cases e1 : "phonenumber" = k
      · simp [← e1]
      · by_cases e2 : "message" = k
        · simp [← e2]
        · by_cases e3 : "contact_id" = k
          · simp [← e3]
          · by_cases e4 : "customData" = k
            · simp [← e4]
            · simp [e1, e2, e3, e4] at hk

/-- C10: for `get_available_numbers`, when every supplied filter is a non-empty
string, the query string is the serialisation of one entry per supplied filter and
none for an omitted one (`country_code` as `code`, `number_type` as `type`,
`search_pattern` as `search`, `locality` as `locality`), in that order; no entry has an
empty value, and an omitted `country_code` or `number_type` yields no `code` or `type`
entry (the defaults of the catalogue are not inserted). The request is a `GET` without
body. -/
theorem get_available_numbers_query (self : Server) (args : Object)
    (h : ∀ p ∈ ["country_code", "number_type", "search_pattern", "locality"],
      Object.getOwn args p = none ∨ ∃ s, s ≠ "" ∧ Object.getOwn args p = some (.str s)) :
    switch self "get_available_numbers" args =
      .ok { url := self.baseUrl ++ "/twilio/numbers/available?" ++
              URLSearchParams.toString
                ([("country_code", "code"), ("number_type", "type"),
                  ("search_pattern", "search"), ("locality", "locality")].filterMap
                  (fun q => match Object.getOwn args q.1 with
                    | some (.str s) => some (q.2, s)
                    | _ => none))
            method := "GET"
            body := none } ∧
    (∀ e ∈ [("country_code", "code"), ("number_type", "type"),
          ("search_pattern", "search"), ("locality", "locality")].filterMap
          (fun q => match Object.getOwn args q.1 with
            | some (.str s) => some (q.2, s)
            | _ => none),
      e.2 ≠ "" ∧
      (Object.getOwn args "country_code" = none → e.1 ≠ "code") ∧
      (Object.getOwn args "number_type" = none → e.1 ≠ "type")) := by
  have h1 := h "country_code" (by decide)
  have h2 := h "number_type" (by decide)
  have h3 := h "search_pattern" (by decide)
  have h4 := h "locality" (by decide)
  have hq : [("country_code", "code"), ("number_type", "type"), ("search_pattern", "search"),
        ("locality", "locality")].filterMap
        (fun q => match Object.getOwn args q.1 with
          | some (.str s) => some (q.2, s)
          | _ => none) =
      ((([] ++ (match Object.getOwn args "country_code" with
          | some (.str s) => [("code", s)]
          | _ => [])) ++ (match Object.getOwn args "number_type" with
          | some (.str s) => [("type", s)]
          | _ => [])) ++ (match Object.getOwn args "search_pattern" with
          | some (.str s) => [("search", s)]
          | _ => [])) ++ (match Object.getOwn args "locality" with
          | some (.str s) => [("locality", s)]
          | _ => []) := by
    rcases h1 with h1 | ⟨s1, n1, h1⟩ <;> rcases h2 with h2 | ⟨s2, n2, h2⟩ <;>
      rcases h3 with h3 | ⟨s3, n3, h3⟩ <;> rcases h4 with h4 | ⟨s4, n4, h4⟩ <;>
      simp only [List.filterMap_cons, List.filterMap_nil, h1, h2, h3, h4] <;> rfl
  constructor
  · rw [hq]
    unfold switch
    simp only [appendIfTruthy_filter _ _ args _ h1, appendIfTruthy_filter _ _ args _ h2,
      appendIfTruthy_filter _ _ args _ h3, appendIfTruthy_filter _ _ args _ h4]
    rfl
  · intro e he
    obtain ⟨q, hq1, hq2⟩ := List.mem_filterMap.1 he
    have key : ∀ (p key : String), q = (p, key) →
        (Object.getOwn args p = none ∨
          ∃ s, s ≠ "" ∧ Object.getOwn args p = some (.str s)) →
        e.1 = key ∧ e.2 ≠ "" ∧ Object.getOwn args p ≠ none := by
      intro p key hq hp
      subst hq
      rcases hp with hp | ⟨s, hs, hp⟩
      · simp [hp] at hq2
      · simp only [hp, Option.some.injEq] at hq2
        subst hq2
        exact ⟨rfl, hs, by simp [hp]⟩
    simp only [List.mem_cons, List.mem_singleton, List.mem_nil_iff, or_false] at hq1
    rcases hq1 with hq1 | hq1 | hq1 | hq1
    · obtain ⟨k1, k2, k3⟩ := key _ _ hq1 h1
      exact ⟨k2, fun hn => absurd hn k3, fun _ => by rw [k1]; decide⟩
    · obtain ⟨k1, k2, k3⟩ := key _ _ hq1 h2
      exact ⟨k2, fun _ => by rw [k1]; decide, fun hn => absurd hn k3⟩
    · obtain ⟨k1, k2, k3⟩ := key _ _ hq1 h3
      exact ⟨k2, fun _ => by rw [k1]; decide, fun _ => by rw [k1]; decide⟩
    · obtain ⟨k1, k2, k3⟩ := key _ _ hq1 h4
      exact ⟨k2, fun _ => by rw [k1]; decide, fun _ => by rw [k1]; decide⟩

/-- C10 (witness): with only `search_pattern` and `country_code` supplied, the query
string has the two entries `code` and `search`, in that order. -/
theorem get_available_numbers_query_witness :
    (∀ p ∈ ["country_code", "number_type", "search_pattern", "locality"],
      Object.getOwn [("search_pattern", .str "555 0"), ("country_code", .str "GB")] p = none ∨
        ∃ s, s ≠ "" ∧
          Object.getOwn [("search_pattern", .str "555 0"), ("country_code", .str "GB")] p =
            some (.str s)) ∧
    switch { apiKey := some "key" } "get_available_numbers"
        [("search_pattern", .str "555 0"), ("country_code", .str "GB")] =
      .ok { url := "https://backend.vavicky.com/vavicky/api/twilio/numbers/available?" ++
              "code=GB&search=555+0"
            method := "GET"
            body := none } :=
  have hw : ∀ p ∈ ["country_code", "number_type", "search_pattern", "locality"],
      Object.getOwn [("search_pattern", .str "555 0"), ("country_code", .str "GB")] p = none ∨
        ∃ s, s ≠ "" ∧
          Object.getOwn [("search_pattern", .str "555 0"), ("country_code", .str "GB")] p =
            some (.str s) := by
    intro p hp
    simp only [List.mem_cons, List.mem_singleton, List.mem_nil_iff, or_false] at hp
    rcases hp with h | h | h | h <;> subst h
    · exact Or.inr ⟨"GB", by decide, rfl⟩
    · exact Or.inl rfl
    · exact Or.inr ⟨"555 0", by decide, rfl⟩
    · exact Or.inl rfl
  ⟨hw, (get_available_numbers_query { apiKey := some "key" } _ hw).1⟩

/-- C11 (counterexample): `get_twilio_usage` with the supplied numeric `limit` 0
builds a query string without a `limit` entry. -/
theorem get_twilio_usage_limit_zero :
    Object.hasOwn [("limit", .num "0")] "limit" = true ∧
    switch { apiKey := some "key" } "get_twilio_usage" [("limit", .num "0")] =
      .ok { url := "https://backend.vavicky.com/vavicky/api/twilio/usage?"
            method := "GET"
            body := none } := by
  exact ⟨rfl, rfl⟩

/-- C11 (amended): for `get_twilio_usage`, when `start_date` and `end_date` are absent
or strings and `limit` is absent or a number, the query string is the serialisation of
the entries `start`, `end`, `limit`, in that order, each present exactly when its
argument is supplied and truthy: a non-empty string for `start_date` and `end_date`, a
number other than 0 and `NaN` for `limit`, which is written as the text `toString()`
prints for that number. -/
theorem get_twilio_usage_query (self : Server) (args : Object)
    (hs : Object.getOwn args "start_date" = none ∨
      ∃ s, Object.getOwn args "start_date" = some (.str s))
    (he : Object.getOwn args "end_date" = none ∨
      ∃ s, Object.getOwn args "end_date" = some (.str s))
    (hl : Object.getOwn args "limit" = none ∨
      ∃ t, Object.getOwn args "limit" = some (.num t)) :
    switch self "get_twilio_usage" args =
      .ok { url := self.baseUrl ++ "/twilio/usage?" ++
              URLSearchParams.toString
                ((match Object.getOwn args "start_date" with
                  | some (.str s) => if s = "" then [] else [("start", s)]
                  | _ => []) ++
                 (match Object.getOwn args "end_date" with
                  | some (.str s) => if s = "" then [] else [("end", s)]
                  | _ => []) ++
                 (match Object.getOwn args "limit" with
                  | some (.num t) => if t = "0" ∨ t = "NaN" then [] else [("limit", t)]
                  | _ => []))
            method := "GET"
            body := none } := by
  unfold switch
  simp only [appendIfTruthy_string_or_absent _ _ args _ hs,
    appendIfTruthy_string_or_absent _ _ args _ he,
    appendTextIfTruthy_number_or_absent _ _ args _ hl]
  rfl

/-- C11 (witness): an empty `start_date`, an `end_date` and the `limit` 50 give the
entries `end` and `limit`; the `limit` 1e21 is written `1e+21`, serialised as
`1e%2B21`. -/
theorem get_twilio_usage_query_witness :
    (Object.getOwn [("start_date", .str ""), ("end_date", .str "2024-01-31"),
        ("limit", .num "50")] "start_date" = none ∨
      ∃ s, Object.getOwn [("start_date", .str ""), ("end_date", .str "2024-01-31"),
        ("limit", .num "50")] "start_date" = some (.str s)) ∧
    switch { apiKey := some "key" } "get_twilio_usage"
        [("start_date", .str ""), ("end_date", .str "2024-01-31"), ("limit", .num "50")] =
      .ok { url := "https://backend.vavicky.com/vavicky/api/twilio/usage?" ++
              "end=2024-01-31&limit=50"
            method := "GET"
            body := none } ∧
    switch { apiKey := some "key" } "get_twilio_usage" [("limit", .num "1e+21")] =
      .ok { url := "https://backend.vavicky.com/vavicky/api/twilio/usage?limit=1e%2B21"
            method := "GET"
            body := none } :=
  ⟨Or.inr ⟨"", rfl⟩,
    get_twilio_usage_query { apiKey := some "key" } _ (Or.inr ⟨"", rfl⟩)
      (Or.inr ⟨"2024-01-31", rfl⟩) (Or.inr ⟨"50", rfl⟩),
    get_twilio_usage_query { apiKey := some "key" } [("limit", .num "1e+21")] (Or.inl rfl)
      (Or.inl rfl) (Or.inr ⟨"1e+21", rfl⟩)⟩

/-- C12: each identity pass-through tool is translated, whatever `args`, to a single
`GET` to a fixed URL under `baseUrl` (for `get_user`, `baseUrl + '/user'`), without
body, with exactly the headers `Authorization: 'Bearer ' + apiKey` and
`Content-Type: application/json`. -/
theorem identity_tools_request (self : Server) (backend : Backend) (args : Object) :
    (executeTool self backend "get_user" args).calls =
      [{ url := self.baseUrl ++ "/user", method := "GET", body := none
         headers := [("Authorization", "Bearer " ++ self.apiKey.getD "undefined"),
           ("Content-Type", "application/json")] }] ∧
    (executeTool self backend "get_assistants" args).calls =
      [{ url := self.baseUrl ++ "/assistants", method := "GET", body := none
         headers := [("Authorization", "Bearer " ++ self.apiKey.getD "undefined"),
           ("Content-Type", "application/json")] }] ∧
    (executeTool self backend "get_assistants_token_usage" args).calls =
      [{ url := self.baseUrl ++ "/assistants/all/token/usage", method := "GET", body := none
         headers := [("Authorization", "Bearer " ++ self.apiKey.getD "undefined"),
           ("Content-Type", "application/json")] }] ∧
    (executeTool self backend "get_dashboard_assistant" args).calls =
      [{ url := self.baseUrl ++ "/assistants/gohighlevel/dashboard", method := "GET"
         body := none
         headers := [("Authorization", "Bearer " ++ self.apiKey.getD "undefined"),
           ("Content-Type", "application/json")] }] ∧
    (executeTool self backend "get_twilio_numbers" args).calls =
      [{ url := self.baseUrl ++ "/twilio/numbers", method := "GET", body := none
         headers := [("Authorization", "Bearer " ++ self.apiKey.getD "undefined"),
           ("Content-Type", "application/json")] }] ∧
    (executeTool self backend "get_calls_in_progress" args).calls =
      [{ url := self.baseUrl ++ "/twilio/calls", method := "GET", body := none
         headers := [("Authorization", "Bearer " ++ self.apiKey.getD "undefined"),
           ("Content-Type", "application/json")] }] := by
  have hh : headers self = [("Authorization", "Bearer " ++ self.apiKey.getD "undefined"),
      ("Content-Type", "application/json")] := by
    unfold headers
    cases self.apiKey <;> rfl
  refine ⟨?_, ?_, ?_, ?_, ?_, ?_⟩
  · rw [executeTool_calls self backend "get_user" args
      { url := self.baseUrl ++ "/user" } rfl, ← hh]
    rfl
  · rw [executeTool_calls self backend "get_assistants" args
      { url := self.baseUrl ++ "/assistants" } rfl, ← hh]
    rfl
  · rw [executeTool_calls self backend "get_assistants_token_usage" args
      { url := self.baseUrl ++ "/assistants/all/token/usage" } rfl, ← hh]
    rfl
  · rw [executeTool_calls self backend "get_dashboard_assistant" args
      { url := self.baseUrl ++ "/assistants/gohighlevel/dashboard" } rfl, ← hh]
    rfl
  · rw [executeTool_calls self backend "get_twilio_numbers" args
      { url := self.baseUrl ++ "/twilio/numbers" } rfl, ← hh]
    rfl
  · rw [executeTool_calls self backend "get_calls_in_progress" args
      { url := self.baseUrl ++ "/twilio/calls" } rfl, ← hh]
    rfl

/-- C13: once a request has been issued and the backend answers with a success
status, `executeTool` returns what `response.json()` gives, whatever the tool and
its arguments; the one request issued is the translated one. -/
theorem executeTool_success (self : Server) (backend : Backend) (toolName : String)
    (args : Object) (locals : Locals) (response : Response)
    (hrequest : switch self toolName args = .ok locals)
    (hresponse : backend (options self locals) = .ok response)
    (hok : response.ok = true) :
    (executeTool self backend toolName args).result = response.json ∧
    (executeTool self backend toolName args).calls = [options self locals] := by
  unfold executeTool
  simp [hrequest, hresponse, hok]

/-- C13 (witness): `get_user` answered by status 200 and the payload `id: u1` returns
that payload. -/
theorem executeTool_success_witness :
    (executeTool { apiKey := some "key" }
        (fun _ => .ok { status := 200, statusText := "OK", text := .ok "",
                        json := .ok (.obj [("id", .str "u1")]) })
        "get_user" []).result = .ok (.obj [("id", .str "u1")]) :=
  (executeTool_success { apiKey := some "key" }
    (fun _ => .ok { status := 200, statusText := "OK", text := .ok "",
                    json := .ok (.obj [("id", .str "u1")]) })
    "get_user" [] { url := "https://backend.vavicky.com/vavicky/api/user" }
    { status := 200, statusText := "OK", text := .ok "", json := .ok (.obj [("id", .str "u1")]) }
    rfl rfl rfl).1

/-- C14: once a request has been issued and the backend answers with a status
outside 200 to 299, `executeTool` returns no value: it throws, and when the body text
of the response is `errorText` it throws an `Error` with the message
`API request failed: <status> <statusText> - <errorText>`; it has issued exactly
that one request. -/
theorem executeTool_failure (self : Server) (backend : Backend) (toolName : String)
    (args : Object) (locals : Locals) (response : Response)
    (hrequest : switch self toolName args = .ok locals)
    (hresponse : backend (options self locals) = .ok response)
    (hok : response.ok = false) :
    (∀ value : Value, (executeTool self backend toolName args).result ≠ .ok value) ∧
    (∀ errorText : String, response.text = .ok errorText →
      (executeTool self backend toolName args).result =
        .error (.error ("API request failed: " ++ toString response.status ++ " " ++
          response.statusText ++ " - " ++ errorText))) ∧
    (executeTool self backend toolName args).calls = [options self locals] := by
  unfold executeTool
  refine ⟨?_, ?_, ?_⟩
  · intro value
    cases ht : response.text <;> simp [hrequest, hresponse, hok, ht]
  · intro errorText ht
    simp [hrequest, hresponse, hok, ht]
  · cases ht : response.text <;> simp [hrequest, hresponse, hok, ht]

/-- C14 (witness): `delete_assistant` of `a1` answered by status 404 and the body
`not found`. -/
theorem executeTool_failure_witness :
    (executeTool { apiKey := some "key" }
        (fun _ => .ok { status := 404, statusText := "Not Found", text := .ok "not found",
                        json := .error (.other "SyntaxError" "Unexpected token") })
        "delete_assistant" [("assistant_id", .str "a1")]).result =
      .error (.error "API request failed: 404 Not Found - not found") ∧
    (executeTool { apiKey := some "key" }
        (fun _ => .ok { status := 404, statusText := "Not Found", text := .ok "not found",
                        json := .error (.other "SyntaxError" "Unexpected token") })
        "delete_assistant" [("assistant_id", .str "a1")]).calls =
      [{ url := "https://backend.vavicky.com/vavicky/api/assistants/a1"
         method := "DELETE"
         headers := [("Authorization", "Bearer key"), ("Content-Type", "application/json")]
         body := none }] :=
  have h := executeTool_failure { apiKey := some "key" }
    (fun _ => .ok { status := 404, statusText := "Not Found", text := .ok "not found",
                    json := .error (.other "SyntaxError" "Unexpected token") })
    "delete_assistant" [("assistant_id", .str "a1")]
    { url := "https://backend.vavicky.com/vavicky/api/assistants/a1", method := "DELETE" }
    { status := 404, statusText := "Not Found", text := .ok "not found",
      json := .error (.other "SyntaxError" "Unexpected token") }
    rfl rfl rfl
  ⟨h.2.1 "not found" rfl, h.2.2⟩

/-- C15 (counterexample): `create_assistant` without its required `name`, `send_sms`
without its required `message`, and `create_assistant` with an `assistant_type`
outside the declared enum are each translated and sent. -/
theorem missing_required_argument_is_sent :
    (tools.find? (fun t => t.name = "create_assistant")).map
        (fun t => t.inputSchema.required) = some ["name", "apiKey"] ∧
    (executeTool { apiKey := some "key" }
        (fun _ => .ok { status := 200, statusText := "OK", text := .ok "", json := .ok .null })
        "create_assistant" [("apiKey", .str "sk")]).calls =
      [{ url := "https://backend.vavicky.com/vavicky/api/assistants"
         method := "POST"
         headers := [("Authorization", "Bearer key"), ("Content-Type", "application/json")]
         body := some "\x7b\"apiKey\":\"sk\"\x7d" }] ∧
    (tools.find? (fun t => t.name = "send_sms")).map
        (fun t => t.inputSchema.required) = some ["assistant_id", "phone_number", "message"] ∧
    (executeTool { apiKey := some "key" }
        (fun _ => .ok { status := 200, statusText := "OK", text := .ok "", json := .ok .null })
        "send_sms" [("assistant_id", .str "a1"), ("phone_number", .str "+15550100")]).calls =
      [{ url := "https://backend.vavicky.com/vavicky/api/twilio/a1/sms"
         method := "POST"
         headers := [("Authorization", "Bearer key"), ("Content-Type", "application/json")]
         body := some "\x7b\"phonenumber\":\"+15550100\"\x7d" }] ∧
    (executeTool { apiKey := some "key" }
        (fun _ => .ok { status := 200, statusText := "OK", text := .ok "", json := .ok .null })
        "create_assistant"
        [("name", .str "n"), ("apiKey", .str "sk"), ("assistant_type", .str "Bogus")]).calls =
      [{ url := "https://backend.vavicky.com/vavicky/api/assistants"
         method := "POST"
         headers := [("Authorization", "Bearer key"), ("Content-Type", "application/json")]
         body := some "\x7b\"name\":\"n\",\"apiKey\":\"sk\",\"assistant_type\":\"Bogus\"\x7d" }] := by
  refine ⟨rfl, rfl, rfl, rfl, rfl⟩

/-- C15 (amended): no argument is checked against the catalogue. For every tool of the
catalogue and every `args` whose values convert to text, also when a required argument
is missing or empty or an enum-typed argument lies outside its enum, `executeTool`
translates the call and sends exactly one request. -/
theorem arguments_are_not_validated (self : Server) (backend : Backend) (toolName : String)
    (args : Object) (hknown : toolName ∈ toolNames)
    (htext : ∀ k : String, ∃ s, (Object.get args k).toStr = .ok s) :
    ∃ locals, switch self toolName args = .ok locals ∧
      (executeTool self backend toolName args).calls = [options self locals] := by
  have hlabels : toolNames = caseLabels := by decide
  rw [hlabels] at hknown
  obtain ⟨locals, hl⟩ := switch_ok self toolName args hknown htext
  exact ⟨locals, hl, executeTool_calls self backend toolName args locals hl⟩

/-- C15 (witness): `update_smtp` with no argument at all, all three required ones
missing, is sent. -/
theorem arguments_are_not_validated_witness :
    "update_smtp" ∈ toolNames ∧
    ∃ locals, switch { apiKey := some "key" } "update_smtp" [] = .ok locals ∧
      (executeTool { apiKey := some "key" }
        (fun _ => .ok { status := 200, statusText := "OK", text := .ok "", json := .ok .null })
        "update_smtp" []).calls = [options { apiKey := some "key" } locals] :=
  ⟨by decide,
    arguments_are_not_validated { apiKey := some "key" }
      (fun _ => .ok { status := 200, statusText := "OK", text := .ok "", json := .ok .null })
      "update_smtp" [] (by decide) (fun _ => ⟨"undefined", rfl⟩)⟩

/-- C16: for `update_smtp` the body has exactly the four keys `smtp_email`,
`smtp_password`, `smtp_host`, `smtp_port`, in that order, each holding the value read
from the argument of the same name as it is (`undefined` when absent, the empty string
when empty); the request depends on no other key of `args`. -/
theorem update_smtp_body (self : Server) (args : Object) :
    switch self "update_smtp" args =
      .ok { url := self.baseUrl ++ "/user/smtp"
            method := "PATCH"
            body := some [("smtp_email", Object.get args "smtp_email"),
              ("smtp_password", Object.get args "smtp_password"),
              ("smtp_host", Object.get args "smtp_host"),
              ("smtp_port", Object.get args "smtp_port")] } ∧
    (∀ k : String, Object.getOwn args k = none → Object.get args k = .undefined) ∧
    (∀ k : String, Object.getOwn args k = some (.str "") → Object.get args k = .str "") ∧
    (∀ other : Object,
      Object.get other "smtp_email" = Object.get args "smtp_email" →
      Object.get other "smtp_password" = Object.get args "smtp_password" →
      Object.get other "smtp_host" = Object.get args "smtp_host" →
      Object.get other "smtp_port" = Object.get args "smtp_port" →
      switch self "update_smtp" other = switch self "update_smtp" args) := by
  refine ⟨rfl, ?_, ?_, ?_⟩
  · intro k h
    simp [Object.get, h]
  · intro k h
    simp [Object.get, h]
  · intro other h1 h2 h3 h4
    show (Except.ok _ : Except Error Locals) = Except.ok _
    rw [h1, h2, h3, h4]

/-- C17: for `delete_assistant_file` with the strings `a` and `f` as `assistant_id`
and `file_id`, the request is a `DELETE` without body to exactly
`baseUrl + '/assistants/' + a + '/files/' + f`; no other key of `args` takes part. -/
theorem delete_assistant_file_request (self : Server) (args : Object) (a f : String)
    (ha : Object.getOwn args "assistant_id" = some (.str a))
    (hf : Object.getOwn args "file_id" = some (.str f)) :
    switch self "delete_assistant_file" args =
      .ok { url := self.baseUrl ++ "/assistants/" ++ a ++ "/files/" ++ f
            method := "DELETE"
            body := none } ∧
    options self { url := self.baseUrl ++ "/assistants/" ++ a ++ "/files/" ++ f
                   method := "DELETE"
                   body := none } =
      { url := self.baseUrl ++ "/assistants/" ++ a ++ "/files/" ++ f
        method := "DELETE"
        headers := headers self
        body := none } := by
  refine ⟨?_, rfl⟩
  have h1 : (Object.get args "assistant_id").toStr = .ok a := by
    simp [Object.get, ha, Value.toStr, pure, Except.pure]
  have h2 : (Object.get args "file_id").toStr = .ok f := by
    simp [Object.get, hf, Value.toStr, pure, Except.pure]
  unfold switch
  simp only [h1, h2]
  rfl

/-- C17 (witness): identifiers with a space, a slash, a question mark and a letter
outside ASCII are inserted as they are. -/
theorem delete_assistant_file_request_witness :
    switch { apiKey := some "key" } "delete_assistant_file"
        [("file_id", .str " f?1"), ("extra", .num "7"), ("assistant_id", .str "a b/é")] =
      .ok { url := "https://backend.vavicky.com/vavicky/api/assistants/a b/é/files/ f?1"
            method := "DELETE"
            body := none } :=
  (delete_assistant_file_request { apiKey := some "key" }
    [("file_id", .str " f?1"), ("extra", .num "7"), ("assistant_id", .str "a b/é")]
    "a b/é" " f?1" rfl rfl).1

/-- C18: every request has one of the methods `GET`, `POST`, `PATCH`, `DELETE`; a body
is attached exactly when the method is `POST` or `PATCH`, so a `GET` or `DELETE`
request has none; `make_bulk_call`, a `POST`, sends the empty object. -/
theorem request_method_and_body (self : Server) (toolName : String) (args : Object)
    (locals : Locals) (h : switch self toolName args = .ok locals) :
    (options self locals).method ∈ ["GET", "POST", "PATCH", "DELETE"] ∧
    ((options self locals).body.isSome = true ↔
      ((options self locals).method = "POST" ∨ (options self locals).method = "PATCH")) ∧
    (((options self locals).method = "GET" ∨ (options self locals).method = "DELETE") →
      (options self locals).body = none) ∧
    (toolName = "make_bulk_call" →
      (options self locals).method = "POST" ∧ (options self locals).body = some "\x7b\x7d") := by
  have hbulk : ∀ l, switch self "make_bulk_call" args = .ok l →
      l.method = "POST" ∧ (options self l).body = some "\x7b\x7d" := by
    refine all_bind (fun l : Locals => l.method = "POST" ∧
      (options self l).body = some "\x7b\x7d") _ _ (fun _ => ?_)
    refine all_bind (fun l : Locals => l.method = "POST" ∧
      (options self l).body = some "\x7b\x7d") _ _ (fun _ => ?_)
    exact all_pure (fun l : Locals => l.method = "POST" ∧
      (options self l).body = some "\x7b\x7d") _ ⟨rfl, rfl⟩
  have hm := switch_method_body self toolName args locals h
  have hb := options_body_isSome self locals
  have hmethod : (options self locals).method = locals.method := rfl
  rw [hmethod, hb]
  refine ⟨hm.1, hm.2, ?_, ?_⟩
  · intro hg
    have hnot : ¬ (locals.method = "POST" ∨ locals.method = "PATCH") := by
      rcases hg with hg | hg <;> rw [hg] <;> decide
    have hnone : locals.body.isSome = false := by
      cases hs : locals.body.isSome
      · rfl
      · exact absurd (hm.2.1 hs) hnot
    cases hbody : (options self locals).body with
    | none => rfl
    | some text =>
      rw [← hb, hbody] at hnone
      cases hnone
  · intro ht
    subst ht
    exact hbulk locals h

/-- C18 (witness): `update_twilio_number` without optional arguments is a `PATCH`
that carries the empty object. -/
theorem request_method_and_body_witness :
    (options { apiKey := some "key" }
        { url := "https://backend.vavicky.com/vavicky/api/twilio/numbers/PN1"
          method := "PATCH"
          body := some [] }).body.isSome = true ↔
      ((options { apiKey := some "key" }
        { url := "https://backend.vavicky.com/vavicky/api/twilio/numbers/PN1"
          method := "PATCH"
          body := some [] }).method = "POST" ∨
       (options { apiKey := some "key" }
        { url := "https://backend.vavicky.com/vavicky/api/twilio/numbers/PN1"
          method := "PATCH"
          body := some [] }).method = "PATCH") :=
  (request_method_and_body { apiKey := some "key" } "update_twilio_number"
    [("number_sid", .str "PN1")]
    { url := "https://backend.vavicky.com/vavicky/api/twilio/numbers/PN1"
      method := "PATCH"
      body := some [] } rfl).2.1

/-- C19: the tool names of the catalogue are pairwise distinct, and no parameter named
in a `required` array declares a default value. -/
theorem catalogue_names_distinct_required_without_default :
    toolNames.Nodup ∧
    (∀ tool ∈ tools, ∀ name ∈ tool.inputSchema.required,
      ∀ entry ∈ tool.inputSchema.properties, entry.1 = name → entry.2.default? = none) := by
  refine ⟨by decide, by decide⟩

/-- C20 (counterexample): the `/call-tool` route rejects `get_user` posted without
`args` with status 400; `executeTool` is not invoked and nothing is sent. -/
theorem callTool_rejects_absent_args :
    Wrapper.callTool { apiKey := some "key" }
        (fun _ => .ok { status := 200, statusText := "OK", text := .ok "", json := .ok .null })
        { toolName := some "get_user", args := none } =
      { reply := { status := 400, json := [("error", .str "toolName and args are required")] }
        executed := []
        calls := [] } := by
  rfl

/-- C20 (amended): for every zero-argument tool of the catalogue, the MCP call-tool
handler (with an API key configured) treats absent arguments as the empty mapping: it
invokes `executeTool` with the empty mapping and the tool's request is sent. The
`/call-tool` route does not: a body without `args` is answered with status 400 and
the error `toolName and args are required`, and nothing is sent. -/
theorem absent_arguments (self : Server) (backend : Backend) (tool : Tool)
    (ht : tool ∈ tools) (hz : tool.inputSchema.properties = [])
    (hkey : self.apiKeyMissing = false) :
    callToolHandler self backend { name := tool.name, arguments := none } =
      callToolHandler self backend { name := tool.name, arguments := some [] } ∧
    (callToolHandler self backend { name := tool.name, arguments := none }).executed =
      [(tool.name, [])] ∧
    (∃ locals, switch self tool.name [] = .ok locals ∧
      (callToolHandler self backend { name := tool.name, arguments := none }).calls =
        [options self locals]) ∧
    Wrapper.callTool self backend { toolName := some tool.name, args := none } =
      { reply := { status := 400, json := [("error", .str "toolName and args are required")] }
        executed := []
        calls := [] } := by
  have hc := callToolHandler_calls self backend { name := tool.name, arguments := none } hkey
  refine ⟨rfl, hc.2, ?_, ?_⟩
  · have key : ∀ locals, switch self tool.name [] = .ok locals →
        ∃ locals, switch self tool.name [] = .ok locals ∧
          (callToolHandler self backend { name := tool.name, arguments := none }).calls =
            [options self locals] := by
      intro locals hl
      exact ⟨locals, hl, by rw [hc.1]; exact executeTool_calls self backend _ _ locals hl⟩
    have hn := zero_argument_tools tool ht hz
    simp only [List.mem_cons, List.mem_singleton, List.mem_nil_iff, or_false] at hn
    rcases hn with h | h | h | h | h | h | h <;> rw [h] at key ⊢
    · exact key _ rfl
    · exact key _ rfl
    · exact key _ rfl
    · exact key _ rfl
    · exact key _ rfl
    · exact key _ rfl
    · exact key _ rfl
  · simp [Wrapper.callTool, Wrapper.badRequest]

/-- C20 (witness): `get_calls_in_progress` called through the MCP handler without
arguments sends its request. -/
theorem absent_arguments_witness :
    (callToolHandler { apiKey := some "key" }
        (fun _ => .ok { status := 200, statusText := "OK", text := .ok "", json := .ok .null })
        { name := "get_calls_in_progress", arguments := none }).executed =
      [("get_calls_in_progress", [])] :=
  (absent_arguments { apiKey := some "key" }
    (fun _ => .ok { status := 200, statusText := "OK", text := .ok "", json := .ok .null })
    { name := "get_calls_in_progress"
      description := "Get all calls currently in progress"
      inputSchema := { properties := [], required := [] } }
    (by decide) rfl rfl).2.1

/-- C21 (counterexample): with an API key configured, `executeTool` fails for the
unknown tool `nonexistent_tool` with the message `Unknown tool: nonexistent_tool`, and
the error the handler throws has the message
`MCP error -32603: Tool execution failed: Unknown tool: nonexistent_tool`, which is not
`Tool execution failed: ` followed by the message of the failure. -/
theorem callToolHandler_failure_message :
    (executeTool { apiKey := some "key" }
        (fun _ => .ok { status := 200, statusText := "OK", text := .ok "", json := .ok .null })
        "nonexistent_tool" []).result = .error (.error "Unknown tool: nonexistent_tool") ∧
    (callToolHandler { apiKey := some "key" }
        (fun _ => .ok { status := 200, statusText := "OK", text := .ok "", json := .ok .null })
        { name := "nonexistent_tool", arguments := none }).reply =
      .error
        { code := .InternalError
          message :=
            "MCP error -32603: Tool execution failed: Unknown tool: nonexistent_tool" } ∧
    "MCP error -32603: Tool execution failed: Unknown tool: nonexistent_tool" ≠
      "Tool execution failed: " ++ "Unknown tool: nonexistent_tool" := by
  exact ⟨rfl, rfl, by decide⟩

/-- C21 (amended): with an API key configured, the call-tool handler has two outcomes.
When `executeTool` returns `r`, the handler returns a content list of one `text` item
holding `JSON.stringify(r, null, 2)`; when `executeTool` throws an error with message
`m`, the handler throws an `McpError` with code `InternalError` and message
`MCP error -32603: Tool execution failed: ` followed by `m`. One of the two always
applies, and a failure never yields a result. -/
theorem callToolHandler_outcomes (self : Server) (backend : Backend) (params : CallToolParams)
    (hkey : self.apiKeyMissing = false) :
    (∀ r : Value,
      (executeTool self backend params.name (params.arguments.getD [])).result = .ok r →
      (callToolHandler self backend params).reply =
        .ok { content := [{ type := "text", text := JSON.stringifyIndented r }] }) ∧
    (∀ thrown : Error,
      (executeTool self backend params.name (params.arguments.getD [])).result =
        .error thrown →
      (callToolHandler self backend params).reply =
        .error { code := .InternalError
                 message := "MCP error -32603: Tool execution failed: " ++ thrown.message }) ∧
    ((∃ r, (executeTool self backend params.name (params.arguments.getD [])).result = .ok r) ∨
      (∃ thrown,
        (executeTool self backend params.name (params.arguments.getD [])).result =
          .error thrown)) := by
  refine ⟨?_, ?_, ?_⟩
  · intro r hr
    unfold callToolHandler
    simp only [hkey, Bool.false_eq_true, if_false, hr]
  · intro thrown hr
    unfold callToolHandler
    simp only [hkey, Bool.false_eq_true, if_false, hr]
    rw [McpError.new_internalError]
  · cases (executeTool self backend params.name (params.arguments.getD [])).result with
    | ok r => exact Or.inl ⟨r, rfl⟩
    | error thrown => exact Or.inr ⟨thrown, rfl⟩

/-- C21 (witness): `get_user` answered with the payload `id: u1` gives the indented
text; an unknown tool gives the `InternalError` with the prefixed message. -/
theorem callToolHandler_outcomes_witness :
    (callToolHandler { apiKey := some "key" }
        (fun _ => .ok { status := 200, statusText := "OK", text := .ok "",
                        json := .ok (.obj [("id", .str "u1")]) })
        { name := "get_user", arguments := none }).reply =
      .ok { content := [{ type := "text", text := some "\x7b\n  \"id\": \"u1\"\n\x7d" }] } ∧
    (callToolHandler { apiKey := some "key" }
        (fun _ => .ok { status := 200, statusText := "OK", text := .ok "",
                        json := .ok (.obj [("id", .str "u1")]) })
        { name := "nonexistent_tool", arguments := none }).reply =
      .error { code := .InternalError
               message :=
                 "MCP error -32603: Tool execution failed: Unknown tool: nonexistent_tool" } :=
  ⟨(callToolHandler_outcomes { apiKey := some "key" }
      (fun _ => .ok { status := 200, statusText := "OK", text := .ok "",
                      json := .ok (.obj [("id", .str "u1")]) })
      { name := "get_user", arguments := none } rfl).1 (.obj [("id", .str "u1")]) rfl,
   (callToolHandler_outcomes { apiKey := some "key" }
      (fun _ => .ok { status := 200, statusText := "OK", text := .ok "",
                      json := .ok (.obj [("id", .str "u1")]) })
      { name := "nonexistent_tool", arguments := none } rfl).2.1
      (.error "Unknown tool: nonexistent_tool") rfl⟩

/-- C22: for every mapping `m` (a well-formed list of properties),
`filterEmptyValues(filterEmptyValues(m))` is `filterEmptyValues(m)`, and the entries of
`filterEmptyValues(m)` are entries of `m` in the same relative order; the result is a
well-formed mapping again. The function only reads `m`. -/
theorem filterEmptyValues_idempotent_ordered (m : Object) (hwf : Object.WellFormed m) :
    filterEmptyValues (filterEmptyValues m) = filterEmptyValues m ∧
    List.Sublist (filterEmptyValues m) m ∧
    List.Sublist (Object.keys (filterEmptyValues m)) (Object.keys m) ∧
    Object.WellFormed (filterEmptyValues m) := by
  have h1 := filterEmptyValues_eq_filter m hwf
  have hsub : List.Sublist (filterEmptyValues m) m := by
    rw [h1]
    exact List.filter_sublist m
  have hwf2 : Object.WellFormed (filterEmptyValues m) := Object.wellFormed_of_sublist hsub hwf
  refine ⟨?_, hsub, List.Sublist.map Prod.fst hsub, hwf2⟩
  rw [filterEmptyValues_eq_filter _ hwf2, h1, List.filter_filter]
  simp

/-- C22 (witness): a mapping with an array-index name, empty values and kept values. -/
theorem filterEmptyValues_idempotent_ordered_witness :
    Object.WellFormed [("7", .str "x"), ("b", .null), ("a", .bool false), ("c", .str ""),
      ("d", .num "0")] ∧
    filterEmptyValues [("7", .str "x"), ("b", .null), ("a", .bool false), ("c", .str ""),
      ("d", .num "0")] = [("7", .str "x"), ("a", .bool false), ("d", .num "0")] ∧
    filterEmptyValues (filterEmptyValues [("7", .str "x"), ("b", .null), ("a", .bool false),
      ("c", .str ""), ("d", .num "0")]) =
      filterEmptyValues [("7", .str "x"), ("b", .null), ("a", .bool false), ("c", .str ""),
        ("d", .num "0")] :=
  ⟨by decide, rfl,
    (filterEmptyValues_idempotent_ordered _ (by decide)).1⟩

/-- C23: for `chat_with_assistant` the URL is
`baseUrl + '/assistants/' + assistant_id + '/chat?audio=' + v`, where `v` is `false`
when `audio` is absent or falsy and the text of `args.audio` otherwise; the method is
`POST` and the body has exactly the keys `message` and `thread_id`, read from `args`. -/
theorem chat_with_assistant_request (self : Server) (args : Object) :
    switch self "chat_with_assistant" args =
      ((Object.get args "assistant_id").toStr >>= fun id =>
        (if (Object.get args "audio").truthy then (Object.get args "audio").toStr
          else .ok "false") >>= fun v =>
          .ok { url := self.baseUrl ++ "/assistants/" ++ id ++ "/chat?audio=" ++ v
                method := "POST"
                body := some [("message", Object.get args "message"),
                  ("thread_id", Object.get args "thread_id")] }) ∧
    (Object.getOwn args "audio" = none → (Object.get args "audio").truthy = false) ∧
    Object.keys [("message", Object.get args "message"),
      ("thread_id", Object.get args "thread_id")] = ["message", "thread_id"] := by
  refine ⟨?_, ?_, rfl⟩
  · have h : (orFalse (Object.get args "audio")).toStr =
        (if (Object.get args "audio").truthy then (Object.get args "audio").toStr
          else .ok "false") := by
      unfold orFalse
      split <;> rfl
    unfold switch
    simp only [h]
    rfl
  · intro h
    simp [Object.get, h, Value.truthy]

/-- C24 (counterexample): `update_twilio_number` with `friendly_name` supplied as
`false`, a value that is neither `undefined`, `null` nor the empty string, builds a
body without `name`. -/
theorem update_twilio_number_false_name :
    Object.getOwn [("number_sid", .str "PN1"), ("friendly_name", .bool false)]
      "friendly_name" = some (.bool false) ∧
    (Value.bool false).nonEmpty = true ∧
    switch { apiKey := some "key" } "update_twilio_number"
        [("number_sid", .str "PN1"), ("friendly_name", .bool false)] =
      .ok { url := "https://backend.vavicky.com/vavicky/api/twilio/numbers/PN1"
            method := "PATCH"
            body := some [] } := by
  exact ⟨rfl, rfl, rfl⟩

/-- C24 (amended): for `update_twilio_number` the body holds, in this order, `name`,
`webhook` and `smsWebhook`, each present exactly when `friendly_name`,
`voice_webhook`, `sms_webhook` respectively is truthy (for a string: supplied and not
empty) and then holding that argument's value; `number_sid` is used in the URL only;
when none of the three is truthy the body is the empty object, sent as the text of an
empty object with the method `PATCH`. -/
theorem update_twilio_number_body (self : Server) (args : Object) :
    switch self "update_twilio_number" args =
      (Object.get args "number_sid").toStr.map (fun sid =>
        { url := self.baseUrl ++ "/twilio/numbers/" ++ sid
          method := "PATCH"
          body := some
            ((if (Object.get args "friendly_name").truthy then
                [("name", Object.get args "friendly_name")] else []) ++
             (if (Object.get args "voice_webhook").truthy then
                [("webhook", Object.get args "voice_webhook")] else []) ++
             (if (Object.get args "sms_webhook").truthy then
                [("smsWebhook", Object.get args "sms_webhook")] else [])) }) ∧
    (∀ k : String, Object.getOwn args k = none → (Object.get args k).truthy = false) ∧
    (∀ (k s : String), Object.getOwn args k = some (.str s) →
      ((Object.get args k).truthy = true ↔ s ≠ "")) ∧
    (∀ url : String,
      (options self { url := url, method := "PATCH", body := some [] }).body =
        some "\x7b\x7d") := by
  refine ⟨?_, ?_, ?_, ?_⟩
  · unfold switch
    simp only [update_twilio_number_body_eq]
    rfl
  · intro k h
    simp [Object.get, h, Value.truthy]
  · intro k s h
    simp [Object.get, h, Value.truthy]
  · intro url
    rfl

/-- C25: in every tool of the catalogue each name of `required` is a key of
`properties`, and each argument the tool's `case` reads from `args` is a key of
`properties`; outside `create_assistant` and `update_assistant`, which forward every
key, the translation depends on no other argument. -/
theorem catalogue_declares_arguments :
    (∀ tool ∈ tools, ∀ name ∈ tool.inputSchema.required,
      name ∈ tool.inputSchema.properties.map Prod.fst) ∧
    (∀ tool ∈ tools, ∀ name ∈ argumentsRead tool.name,
      name ∈ tool.inputSchema.properties.map Prod.fst) ∧
    (∀ (self : Server) (toolName : String) (args other : Object),
      toolName ≠ "create_assistant" → toolName ≠ "update_assistant" →
      (∀ k ∈ argumentsRead toolName, Object.get args k = Object.get other k) →
      switch self toolName args = switch self toolName other) := by
  refine ⟨by decide, ?_, ?_⟩
  · intro tool ht
    simp only [tools, List.mem_cons, List.mem_singleton, List.mem_nil_iff, or_false] at ht
    rcases ht with h | h | h | h | h | h | h | h | h | h | h | h | h | h | h | h | h | h |
      h | h | h | h | h | h | h | h | h | h | h | h | h | h <;> subst h <;> decide
  intro self toolName args other hcreate hupdate h
  exact switch_reads self toolName args other hcreate hupdate h

end VavickyMCPServer
